import Mathlib

/-!
Verification of the sbt-ecosystem reconciliation engine and dependency-tree
renderer against its natural-language specification.

The embedding below is a shallow model of `scripts/insert_analysis.py`
(reconciliation of one Analysis Record into the SQLite store) and
`scripts/report_dependencies.py` (recursive dependency-tree rendering).
SQLite tables are modelled as Lean lists of rows; SQL NULL is `Option.none`;
`cursor.fetchone` after a `SELECT ... WHERE` is `List.find?`; `INSERT` appends
a row; `UPDATE ... WHERE id = ?` maps over the rows replacing the matching
ones; `AUTOINCREMENT` row ids come from an explicit counter in the state.
A Python `KeyError` on a missing JSON key is an explicit `Except` error, and
the commit/rollback pair around one ingestion is the wrapper `insert_analysis`
that returns the updated state on success and the untouched input state
together with the error on failure.
-/

/-! ### Byte-wise string comparison

SQLite orders TEXT columns with the BINARY collation.  `String.decidableLT`
does not reduce in the kernel, so we use an explicit executable
lexicographic comparison on the character lists of the strings.
-/

/-- Lexicographic strict comparison of character lists. -/
def charListLtb : List Char → List Char → Bool
  | [], [] => false
  | [], _ :: _ => true
  | _ :: _, [] => false
  | a :: as, b :: bs =>
    if a < b then true
    else if b < a then false
    else charListLtb as bs

/-- Lexicographic comparison of a pair of keys (organization, name), each a
character list: strictly less when the first components compare strictly, and
by the second components when the first are equal. -/
def keyLtbL (o1 n1 o2 n2 : List Char) : Bool :=
  if charListLtb o1 o2 then true
  else if charListLtb o2 o1 then false
  else charListLtb n1 n2

/-- The `ORDER BY organization, name` comparison on string keys. -/
def keyLtb (o1 n1 o2 n2 : String) : Bool :=
  keyLtbL o1.data n1.data o2.data n2.data

/-! ### Data model

Rows of the four tables used by `insert_analysis.py` and
`report_dependencies.py`.  The columns mirror the ones the scripts read and
write; nullable columns are `Option`s.
-/

/-- A row of the `repositories` table. -/
structure Repository where
  id : Nat
  url : String
  organization : Option String
  name : Option String
  sbt_version : Option String
  is_plugin_containing_repo : Option Bool
  status : Option String
deriving DecidableEq, Repr

/-- A row of the `artifacts` table, in the with-version shape that
`insert_analysis.py` reads and writes (`WHERE organization = ? AND name = ?
AND version = ?`). -/
structure Artifact where
  id : Nat
  organization : String
  name : String
  version : String
  is_plugin : Bool
  repository_id : Option Nat
  subproject : Option String
  is_published : Option Bool
  scala_version : Option String
  status : Option String
deriving DecidableEq, Repr

/-- A row of the `repository_plugin_dependencies` table. -/
structure PluginDependencyEdge where
  repository_id : Nat
  plugin_artifact_id : Nat
  version : String
deriving DecidableEq, Repr

/-- A row of the `artifact_dependencies` table. -/
structure ArtifactDependencyEdge where
  dependent_artifact_id : Nat
  dependency_artifact_id : Nat
  version : String
  scope : String
deriving DecidableEq, Repr

/-- The store state: the four tables plus the AUTOINCREMENT counters that
supply `cursor.lastrowid` for freshly inserted repositories and artifacts. -/
structure DB where
  repositories : List Repository
  artifacts : List Artifact
  plugin_deps : List PluginDependencyEdge
  artifact_deps : List ArtifactDependencyEdge
  next_repo_id : Nat
  next_artifact_id : Nat
deriving DecidableEq, Repr

/-- A freshly initialized store: empty tables, AUTOINCREMENT starting at 1. -/
def DB.empty : DB :=
  { repositories := [], artifacts := [], plugin_deps := [], artifact_deps := [],
    next_repo_id := 1, next_artifact_id := 1 }

/-! ### The Analysis Record

The JSON document consumed by `insert_analysis.py`.  `sbtVersion` is
`Option String` because the script reads it with `data['sbtVersion']`, which
raises `KeyError` when the key is absent; `none` models the absent key.
`status` is `Option String` because a JSON `null` status reaches the store as
SQL NULL.  The remaining top-level fields are part of the record shape and are
modelled as always present.
-/

/-- The `repository` sub-object of an Analysis Record. -/
structure RepositoryInfo where
  url : String
  organization : String
  name : String
deriving DecidableEq, Repr

/-- One entry of `pluginDependencies`. -/
structure PluginDependency where
  organization : String
  name : String
  version : String
deriving DecidableEq, Repr

/-- One entry of an artifact's `libraryDependencies`. -/
structure LibraryDependency where
  organization : String
  name : String
  version : String
  scope : String
deriving DecidableEq, Repr

/-- One entry of `publishedArtifacts`.  `subproject`, `isPublished` and
`scalaVersion` are read with `.get(...)`, hence optional. -/
structure PublishedArtifact where
  organization : String
  name : String
  version : String
  is_plugin : Bool
  subproject : Option String
  is_published : Option Bool
  scala_version : Option String
  library_dependencies : List LibraryDependency
deriving DecidableEq, Repr

/-- One Analysis Record. -/
structure AnalysisRecord where
  repository : RepositoryInfo
  sbtVersion : Option String
  isPluginContainingRepo : Bool
  status : Option String
  pluginDependencies : List PluginDependency
  publishedArtifacts : List PublishedArtifact
deriving DecidableEq, Repr

/-- The Python exceptions raised by the modelled code. -/
inductive PyError where
  | keyError : String → PyError
deriving DecidableEq, Repr

/-! ### Reconciliation: `insert_analysis.py` -/

/-- The query `SELECT status FROM repositories WHERE id = ?` followed by `fetchone`:
`none` when no row matches, `some st` when a row with status `st` (itself
possibly NULL) matches. -/
def repo_status_lookup (db : DB) (rid : Nat) : Option (Option String) :=
  (db.repositories.find? (fun r => r.id == rid)).map (fun r => r.status)

/-- The UPDATE half of `get_or_create_artifact`: on an existing row, fill in
only the NULL fields (never overwriting existing data, and in particular never
replacing a non-null `repository_id`), and backfill a NULL status from the
already-linked repository when one is recorded. -/
def artifact_merge (db : DB) (repository_id : Option Nat) (subproject : Option String)
    (is_published : Bool) (scala_version : Option String) (status : Option String)
    (a : Artifact) : Artifact :=
  let new_repository_id :=
    if repository_id.isSome && a.repository_id.isNone then repository_id
    else a.repository_id
  let status_after_link :=
    if repository_id.isSome && a.repository_id.isNone && status.isSome && a.status.isNone
    then status else a.status
  let new_subproject :=
    if subproject.isSome && a.subproject.isNone then subproject else a.subproject
  let new_is_published :=
    if a.is_published.isNone then some is_published else a.is_published
  let new_scala_version :=
    if scala_version.isSome && a.scala_version.isNone then scala_version
    else a.scala_version
  let new_status :=
    if a.repository_id.isSome && a.status.isNone then
      match a.repository_id with
      | some rid =>
        match repo_status_lookup db rid with
        | some repo_st => repo_st
        | none => status_after_link
      | none => status_after_link
    else status_after_link
  { a with
    repository_id := new_repository_id,
    subproject := new_subproject,
    is_published := new_is_published,
    scala_version := new_scala_version,
    status := new_status }

/-- The fresh row inserted by `get_or_create_artifact` when the lookup finds
nothing: all supplied fields, with a NULL supplied status backfilled from the
supplied repository link when that repository row exists. -/
def artifact_fresh (db : DB) (org name version : String) (is_plugin : Bool)
    (repository_id : Option Nat) (subproject : Option String)
    (is_published : Bool) (scala_version : Option String)
    (status : Option String) : Artifact :=
  let eff_status :=
    if status.isNone && repository_id.isSome then
      match repository_id with
      | some rid =>
        match repo_status_lookup db rid with
        | some repo_st => repo_st
        | none => status
      | none => status
    else status
  { id := db.next_artifact_id, organization := org, name := name,
    version := version, is_plugin := is_plugin, repository_id := repository_id,
    subproject := subproject, is_published := some is_published,
    scala_version := scala_version, status := eff_status }

/-- Function `get_or_create_artifact` from `insert_analysis.py`.  Looks an artifact up
by (organization, name, version); when found, applies `artifact_merge` to that
row; when absent, inserts `artifact_fresh`.  Returns the updated store and the
artifact id. -/
def get_or_create_artifact (db : DB) (org name version : String) (is_plugin : Bool)
    (repository_id : Option Nat) (subproject : Option String)
    (is_published : Bool) (scala_version : Option String)
    (status : Option String) : DB × Nat :=
  match db.artifacts.find?
      (fun a => a.organization == org && a.name == name && a.version == version) with
  | some a =>
    let a2 := artifact_merge db repository_id subproject is_published
      scala_version status a
    ({ db with artifacts := db.artifacts.map (fun x => if x.id == a.id then a2 else x) },
     a.id)
  | none =>
    let a := artifact_fresh db org name version is_plugin repository_id
      subproject is_published scala_version status
    ({ db with artifacts := db.artifacts ++ [a],
               next_artifact_id := db.next_artifact_id + 1 },
     a.id)

/-- The statement `INSERT OR IGNORE INTO repository_plugin_dependencies`.
Modelled from the spec: `schema.sql` is not under `src/`, so the uniqueness
constraint backing OR IGNORE is taken from the spec, which gives the edge
tuple (repositoryId, pluginArtifactId, version) and requires re-ingesting an
identical record to create no duplicate edges; OR IGNORE therefore skips the
insert exactly when an identical edge row already exists. -/
def insert_plugin_dependency_edge (db : DB) (repo_id plugin_art_id : Nat)
    (version : String) : DB :=
  if db.plugin_deps.any (fun e =>
      e.repository_id == repo_id && e.plugin_artifact_id == plugin_art_id &&
      e.version == version)
  then db
  else { db with plugin_deps :=
          db.plugin_deps ++ [⟨repo_id, plugin_art_id, version⟩] }

/-- The statement `INSERT OR IGNORE INTO artifact_dependencies`.
Modelled from the spec: as for plugin edges, the uniqueness constraint is the
full edge tuple (dependentArtifactId, dependencyArtifactId, version, scope). -/
def insert_artifact_dependency_edge (db : DB) (dependent_id dependency_id : Nat)
    (version scope : String) : DB :=
  if db.artifact_deps.any (fun e =>
      e.dependent_artifact_id == dependent_id &&
      e.dependency_artifact_id == dependency_id &&
      e.version == version && e.scope == scope)
  then db
  else { db with artifact_deps :=
          db.artifact_deps ++ [⟨dependent_id, dependency_id, version, scope⟩] }

/-- Step 1 of `insert_analysis`: resolve the repository by url; when present,
fill in only the NULL columns from the record (reading `data['sbtVersion']`,
hence possibly a `KeyError`, only when the stored `sbt_version` is NULL); when
absent, insert the repository with all supplied fields, which always reads
`data['sbtVersion']`.  Returns the store and the repository id. -/
def upsert_repository (db : DB) (rec : AnalysisRecord) :
    Except PyError (DB × Nat) :=
  match db.repositories.find? (fun r => r.url == rec.repository.url) with
  | some r =>
    match (if r.sbt_version.isNone then
            match rec.sbtVersion with
            | none => Except.error (PyError.keyError "sbtVersion")
            | some v => Except.ok (some v)
           else Except.ok r.sbt_version : Except PyError (Option String)) with
    | Except.error e => Except.error e
    | Except.ok new_sbt_version =>
      let r2 : Repository :=
        { r with
          organization :=
            if r.organization.isNone then some rec.repository.organization
            else r.organization,
          name := if r.name.isNone then some rec.repository.name else r.name,
          sbt_version := new_sbt_version,
          is_plugin_containing_repo :=
            if r.is_plugin_containing_repo.isNone then some rec.isPluginContainingRepo
            else r.is_plugin_containing_repo,
          status := if r.status.isNone then rec.status else r.status }
      Except.ok
        ({ db with repositories :=
            db.repositories.map (fun x => if x.id == r.id then r2 else x) },
         r.id)
  | none =>
    match rec.sbtVersion with
    | none => Except.error (PyError.keyError "sbtVersion")
    | some v =>
      let r : Repository :=
        { id := db.next_repo_id, url := rec.repository.url,
          organization := some rec.repository.organization,
          name := some rec.repository.name,
          sbt_version := some v,
          is_plugin_containing_repo := some rec.isPluginContainingRepo,
          status := rec.status }
      Except.ok
        ({ db with repositories := db.repositories ++ [r],
                   next_repo_id := db.next_repo_id + 1 },
         r.id)

/-- Step 2 of `insert_analysis`, one plugin dependency: resolve-or-create the
plugin artifact (no repository link, NULL status) and OR-IGNORE-insert the
edge. -/
def insert_plugin_dependency_step (repo_id : Nat) (db : DB)
    (pd : PluginDependency) : DB :=
  let r := get_or_create_artifact db pd.organization pd.name pd.version true
    none none true none none
  insert_plugin_dependency_edge r.1 repo_id r.2 pd.version

/-- Step 3 of `insert_analysis`, one library dependency of a published
artifact: resolve-or-create the dependency artifact (no repository link, NULL
status) and OR-IGNORE-insert the edge. -/
def insert_library_dependency_step (artifact_id : Nat) (db : DB)
    (ld : LibraryDependency) : DB :=
  let r := get_or_create_artifact db ld.organization ld.name ld.version false
    none none true none none
  insert_artifact_dependency_edge r.1 artifact_id r.2 ld.version ld.scope

/-- Step 3 of `insert_analysis`, one published artifact: resolve-or-create the
artifact with this repository's id and the record's status, then insert its
library-dependency edges. -/
def insert_published_artifact_step (repo_id : Nat) (repo_status : Option String)
    (db : DB) (pa : PublishedArtifact) : DB :=
  let r := get_or_create_artifact db pa.organization pa.name pa.version
    pa.is_plugin (some repo_id) pa.subproject (pa.is_published.getD true)
    pa.scala_version repo_status
  pa.library_dependencies.foldl (insert_library_dependency_step r.2) r.1

/-- The body of the `try` block of `insert_analysis`: repository upsert, then
plugin-dependency edges, then published artifacts with their
library-dependency edges.  No edge is ever deleted anywhere in this path. -/
def insert_analysis_run (db : DB) (rec : AnalysisRecord) : Except PyError DB :=
  match upsert_repository db rec with
  | Except.error e => Except.error e
  | Except.ok step1 =>
    let db2 := rec.pluginDependencies.foldl
      (insert_plugin_dependency_step step1.2) step1.1
    -- repo_status is data.get('status', 'not_ported'); the default fires only
    -- when the key is absent, and the model treats the key as present (its
    -- value possibly null), so the value is the record's status as-is.
    let repo_status := rec.status
    Except.ok (rec.publishedArtifacts.foldl
      (insert_published_artifact_step step1.2 repo_status) db2)

/-- Function `insert_analysis`: run the ingestion inside a transaction; on success
commit (`some` final state, no error), on any exception roll back every
accumulated change and re-raise (the original state, `some` error). -/
def insert_analysis (db : DB) (rec : AnalysisRecord) : DB × Option PyError :=
  match insert_analysis_run db rec with
  | Except.ok db2 => (db2, none)
  | Except.error e => (db, some e)

/-! ### Dependency-tree rendering: `report_dependencies.py` -/

/-- How Python string formatting renders a value that may be SQL NULL. -/
def pyStr : Option String → String
  | none => "None"
  | some s => s

/-- ANSI red. -/
def ansiRed : String := "\x1b[31m"

/-- ANSI green. -/
def ansiGreen : String := "\x1b[32m"

/-- ANSI yellow. -/
def ansiYellow : String := "\x1b[33m"

/-- ANSI reset. -/
def ansiReset : String := "\x1b[0m"

/-- Function `get_status_letter`: the one-character status indicator. -/
def get_status_letter (status : Option String) : String :=
  match status with
  | none => "?"
  | some s =>
    if s == "not_ported" then "X"
    else if s == "experimental" then "E"
    else if s == "upstream" then "✓"
    else if s == "blocked" then "B"
    else "?"

/-- Function `colorize_status_letter`: X in red, ✓ in green, others uncoloured. -/
def colorize_status_letter (letter : String) : String :=
  if letter == "X" then ansiRed ++ letter ++ ansiReset
  else if letter == "✓" then ansiGreen ++ letter ++ ansiReset
  else letter

/-- Function `colorize_already_visited`: the suffix in yellow. -/
def colorize_already_visited (text : String) : String :=
  ansiYellow ++ text ++ ansiReset

/-- Function `format_repo_name`: `organization/name` for a repository row, whose
columns may be NULL. -/
def format_repo_name (org name : Option String) : String :=
  pyStr org ++ "/" ++ pyStr name

/-- Function `format_artifact_name`: `organization:name:version`, dropping the version
suffix when the version is falsy in Python (absent or the empty string). -/
def format_artifact_name (org name : String) (version : Option String) : String :=
  match version with
  | some v => if v == "" then org ++ ":" ++ name else org ++ ":" ++ name ++ ":" ++ v
  | none => org ++ ":" ++ name

/-- One row of the `get_plugin_dependencies` query: the joined artifact
columns plus the edge's declared version. -/
structure PluginDepRow where
  id : Nat
  organization : String
  name : String
  repository_id : Option Nat
  status : Option String
  dep_version : String
deriving DecidableEq, Repr

/-- The unsorted rows of the `get_plugin_dependencies` query: edges of the
repository inner-joined with the artifacts table. -/
def plugin_dependency_rows (db : DB) (repository_id : Nat) : List PluginDepRow :=
  db.plugin_deps.filterMap (fun e =>
    if e.repository_id == repository_id then
      (db.artifacts.find? (fun a => a.id == e.plugin_artifact_id)).map
        (fun a =>
          { id := a.id, organization := a.organization, name := a.name,
            repository_id := a.repository_id, status := a.status,
            dep_version := e.version })
    else none)

/-- The clause `ORDER BY a.organization, a.name` as a relation on query rows:
`x` precedes `y` when `y`'s key is not strictly below `x`'s. -/
def rowLe (x y : PluginDepRow) : Prop :=
  keyLtb y.organization y.name x.organization x.name = false

instance : DecidableRel rowLe := fun x y =>
  inferInstanceAs (Decidable (keyLtb y.organization y.name x.organization x.name = false))

/-- Function `get_plugin_dependencies`: the edges of a repository joined with their
artifacts, sorted by (organization, name). -/
def get_plugin_dependencies (db : DB) (repository_id : Nat) : List PluginDepRow :=
  List.insertionSort rowLe (plugin_dependency_rows db repository_id)

/-- Function `get_repository_for_plugin`: the owning repository of an artifact via its
non-null `repository_id`, as (id, organization, name, status); `none` when the
artifact has no repository link or the linked repository row is missing. -/
def get_repository_for_plugin (db : DB) (plugin_artifact_id : Nat) :
    Option (Nat × Option String × Option String × Option String) :=
  match db.artifacts.find?
      (fun a => a.id == plugin_artifact_id && a.repository_id.isSome) with
  | some a =>
    match a.repository_id with
    | some rid =>
      (db.repositories.find? (fun r => r.id == rid)).map
        (fun r => (r.id, r.organization, r.name, r.status))
    | none => none
  | none => none

/-- The result of a traversal: the printed lines, the visited repository ids
and the visited artifact (organization, name) keys. -/
abbrev RenderResult : Type := List String × List Nat × List (String × String)

/-- Prepend one printed line to a traversal result. -/
def consLine (line : String) : Option RenderResult → Option RenderResult
  | none => none
  | some (ls, vr, va) => some (line :: ls, vr, va)

/-- Prepend the lines printed by a recursive call to a traversal result. -/
def prependLines (ls1 : List String) : Option RenderResult → Option RenderResult
  | none => none
  | some (ls2, vr, va) => some (ls1 ++ ls2, vr, va)

/-- The `for` loop of `print_dependency_tree` over the sorted dependency rows,
threading the visited sets; `child` is the recursive call for an unvisited,
non-upstream owning repository.  An edge whose artifact resolves to an already
visited owning repository prints an "(already visited)" leaf; an unvisited
owning repository with status upstream prints a terminal leaf; otherwise the
traversal recurses.  An edge whose artifact has no owning repository prints an
artifact leaf (marking its key visited on first sight). -/
def render_plugin_deps (db : DB)
    (child : Nat → Option String → Option String → Option String →
      List Nat → List (String × String) → String → Option RenderResult)
    (indent : String) :
    List PluginDepRow → List Nat → List (String × String) → Option RenderResult
  | [], vr, va => some ([], vr, va)
  | d :: rest, vr, va =>
    let is_last := rest.isEmpty
    let tree_char := if is_last then "└─" else "├─"
    let child_indent := indent ++ tree_char ++ " "
    let next_indent := indent ++ (if is_last then "   " else "│  ")
    let artifact_key := (d.organization, d.name)
    match get_repository_for_plugin db d.id with
    | some (prid, porg, pname, pstatus) =>
      if prid ∈ vr then
        consLine
          (child_indent ++ colorize_status_letter (get_status_letter pstatus) ++
            " " ++ format_repo_name porg pname ++ " " ++
            colorize_already_visited "(already visited)")
          (render_plugin_deps db child indent rest vr va)
      else if pstatus = some "upstream" then
        consLine
          (child_indent ++ colorize_status_letter (get_status_letter pstatus) ++
            " " ++ format_repo_name porg pname)
          (render_plugin_deps db child indent rest vr (artifact_key :: va))
      else
        match child prid porg pname pstatus vr (artifact_key :: va) next_indent with
        | none => none
        | some (ls1, vr1, va1) =>
          prependLines ls1 (render_plugin_deps db child indent rest vr1 va1)
    | none =>
      if artifact_key ∈ va then
        consLine
          (child_indent ++ colorize_status_letter (get_status_letter d.status) ++
            " " ++ format_artifact_name d.organization d.name (some d.dep_version))
          (render_plugin_deps db child indent rest vr va)
      else
        consLine
          (child_indent ++ colorize_status_letter (get_status_letter d.status) ++
            " " ++ format_artifact_name d.organization d.name (some d.dep_version))
          (render_plugin_deps db child indent rest vr (artifact_key :: va))

/-- Function `print_dependency_tree` with an explicit recursion-depth budget: print the
node's own status letter and display name, mark the repository visited, fetch
its sorted plugin-dependency rows and process them in order.  `none` means the
budget ran out before the traversal finished. -/
def print_dependency_tree_fuel (db : DB) :
    Nat → Nat → Option String → Option String → Option String →
    List Nat → List (String × String) → String → Option RenderResult
  | 0, _, _, _, _, _, _, _ => none
  | fuel + 1, repository_id, org, name, status, vr, va, indent =>
    consLine
      (indent ++ colorize_status_letter (get_status_letter status) ++ " " ++
        format_repo_name org name)
      (render_plugin_deps db (print_dependency_tree_fuel db fuel) indent
        (get_plugin_dependencies db repository_id) (repository_id :: vr) va)

/-- Function `print_dependency_tree`: the traversal with a budget of one more than the
number of repository rows, which (as proved below) is always enough for it to
finish. -/
def print_dependency_tree (db : DB) (repository_id : Nat)
    (org name status : Option String) (vr : List Nat)
    (va : List (String × String)) (indent : String) : Option RenderResult :=
  print_dependency_tree_fuel db (db.repositories.length + 1) repository_id
    org name status vr va indent

/-- The number of repository rows not yet visited: the measure that shrinks
every time the traversal enters an unvisited repository, bounding the
recursion depth. -/
def unvisited (db : DB) (vr : List Nat) : Nat :=
  (db.repositories.filter (fun r => !(decide (r.id ∈ vr)))).length

/-- The artifact rows matching one (organization, name, version) coordinate:
the lookup key of `get_or_create_artifact`. -/
def artifact_rows_for (db : DB) (o n v : String) : List Artifact :=
  db.artifacts.filter (fun a => a.organization == o && a.name == n && a.version == v)

/-- Well-formedness of the artifacts table as SQLite maintains it: at most one
row per (organization, name, version) — the table's UNIQUE key in the
with-version schema — and distinct row ids, all below the AUTOINCREMENT
counter. -/
def ArtifactTableWF (db : DB) : Prop :=
  (∀ o n v, (artifact_rows_for db o n v).length ≤ 1) ∧
  (db.artifacts.map (fun a => a.id)).Nodup ∧
  (∀ a ∈ db.artifacts, a.id < db.next_artifact_id)

/-! ### Concrete stores and records used by the claims -/

/-- Repository A of the A↔B plugin-dependency cycle. -/
def repoA : Repository :=
  { id := 1, url := "https://a", organization := some "org", name := some "A",
    sbt_version := some "1.9", is_plugin_containing_repo := some true,
    status := some "not_ported" }

/-- Repository B of the A↔B plugin-dependency cycle. -/
def repoB : Repository :=
  { id := 2, url := "https://b", organization := some "org", name := some "B",
    sbt_version := some "1.9", is_plugin_containing_repo := some true,
    status := some "not_ported" }

/-- The artifact published by repository B. -/
def artB : Artifact :=
  { id := 1, organization := "org", name := "B", version := "1.0", is_plugin := true,
    repository_id := some 2, subproject := none, is_published := some true,
    scala_version := none, status := some "not_ported" }

/-- The artifact published by repository A. -/
def artA : Artifact :=
  { id := 2, organization := "org", name := "A", version := "1.0", is_plugin := true,
    repository_id := some 1, subproject := none, is_published := some true,
    scala_version := none, status := some "not_ported" }

/-- A cyclic store: A plugin-depends on B's artifact and B on A's. -/
def cycDB : DB :=
  { repositories := [repoA, repoB], artifacts := [artB, artA],
    plugin_deps := [⟨1, 1, "1.0"⟩, ⟨2, 2, "1.0"⟩], artifact_deps := [],
    next_repo_id := 3, next_artifact_id := 3 }

/-- Repository B with status upstream. -/
def repoBup : Repository := { repoB with status := some "upstream" }

/-- Repository C, a plugin dependency of the upstream repository B. -/
def repoC : Repository :=
  { id := 3, url := "https://c", organization := some "org", name := some "C",
    sbt_version := some "1.9", is_plugin_containing_repo := some true,
    status := some "not_ported" }

/-- B's artifact with status upstream. -/
def artBup : Artifact := { artB with status := some "upstream" }

/-- The artifact published by repository C. -/
def artC : Artifact :=
  { id := 2, organization := "org", name := "C", version := "1.0", is_plugin := true,
    repository_id := some 3, subproject := none, is_published := some true,
    scala_version := none, status := some "not_ported" }

/-- A store with A → B (status upstream) → C as plugin dependencies. -/
def upstreamDB : DB :=
  { repositories := [repoA, repoBup, repoC], artifacts := [artBup, artC],
    plugin_deps := [⟨1, 1, "1.0"⟩, ⟨2, 2, "1.0"⟩], artifact_deps := [],
    next_repo_id := 4, next_artifact_id := 3 }

/-- A repository-less plugin artifact named zeta. -/
def artZeta : Artifact :=
  { id := 1, organization := "org", name := "zeta", version := "1.0", is_plugin := true,
    repository_id := none, subproject := none, is_published := some true,
    scala_version := none, status := none }

/-- A repository-less plugin artifact named alpha. -/
def artAlpha : Artifact :=
  { id := 2, organization := "org", name := "alpha", version := "1.0", is_plugin := true,
    repository_id := none, subproject := none, is_published := some true,
    scala_version := none, status := none }

/-- Repository R, depending on zeta and alpha. -/
def repoR : Repository :=
  { id := 1, url := "https://r", organization := some "org", name := some "R",
    sbt_version := some "1.9", is_plugin_containing_repo := some true,
    status := some "not_ported" }

/-- R's plugin edges inserted zeta first. -/
def orderDB : DB :=
  { repositories := [repoR], artifacts := [artZeta, artAlpha],
    plugin_deps := [⟨1, 1, "1.0"⟩, ⟨1, 2, "1.0"⟩], artifact_deps := [],
    next_repo_id := 2, next_artifact_id := 3 }

/-- R's plugin edges inserted alpha first. -/
def orderDBrev : DB :=
  { repositories := [repoR], artifacts := [artZeta, artAlpha],
    plugin_deps := [⟨1, 2, "1.0"⟩, ⟨1, 1, "1.0"⟩], artifact_deps := [],
    next_repo_id := 2, next_artifact_id := 3 }

/-- An Analysis Record for R declaring plugin dependencies P1 and P2. -/
def recPlugins1 : AnalysisRecord :=
  { repository := { url := "https://r", organization := "org", name := "R" },
    sbtVersion := some "1.9", isPluginContainingRepo := true,
    status := some "not_ported",
    pluginDependencies := [⟨"org", "p1", "1.0"⟩, ⟨"org", "p2", "1.0"⟩],
    publishedArtifacts := [] }

/-- A later Analysis Record for R declaring only P2. -/
def recPlugins2 : AnalysisRecord :=
  { recPlugins1 with pluginDependencies := [⟨"org", "p2", "1.0"⟩] }

/-- A repository row with every reconciled column non-null. -/
def repoFull : Repository :=
  { id := 1, url := "https://r", organization := some "oldorg", name := some "R",
    sbt_version := some "1.9", is_plugin_containing_repo := some true,
    status := some "upstream" }

/-- A store holding only `repoFull`. -/
def dbC3 : DB :=
  { repositories := [repoFull], artifacts := [], plugin_deps := [], artifact_deps := [],
    next_repo_id := 2, next_artifact_id := 1 }

/-- A re-analysis of `repoFull`'s url supplying different organization, name,
isPluginContainingRepo and status values. -/
def recC3 : AnalysisRecord :=
  { repository := { url := "https://r", organization := "neworg", name := "R2" },
    sbtVersion := some "2.0", isPluginContainingRepo := false,
    status := some "not_ported", pluginDependencies := [], publishedArtifacts := [] }

/-- A published artifact entry for org:lib:1.0. -/
def paLib : PublishedArtifact :=
  { organization := "org", name := "lib", version := "1.0", is_plugin := false,
    subproject := none, is_published := none, scala_version := none,
    library_dependencies := [] }

/-- The same coordinate at version 2.0. -/
def paLib2 : PublishedArtifact := { paLib with version := "2.0" }

/-- An artifact owned by repository 1 with an independently set status. -/
def artLib : Artifact :=
  { id := 1, organization := "org", name := "lib", version := "1.0", is_plugin := false,
    repository_id := some 1, subproject := none, is_published := some true,
    scala_version := none, status := some "not_ported" }

/-- A store with an upstream repository owning `artLib` (status not_ported). -/
def dbC4 : DB :=
  { repositories := [repoFull], artifacts := [artLib],
    plugin_deps := [], artifact_deps := [], next_repo_id := 2, next_artifact_id := 2 }

/-- A re-analysis with status upstream republishing org:lib:1.0. -/
def recC4 : AnalysisRecord :=
  { repository := { url := "https://r", organization := "org", name := "R" },
    sbtVersion := some "1.9", isPluginContainingRepo := true,
    status := some "upstream", pluginDependencies := [],
    publishedArtifacts := [paLib] }

/-- An analysis of a fresh url with a JSON null status publishing org:lib:1.0:
it creates the repository and the artifact with NULL status and a repository
link. -/
def recC4a : AnalysisRecord :=
  { repository := { url := "https://r", organization := "org", name := "R" },
    sbtVersion := some "1.9", isPluginContainingRepo := true,
    status := none, pluginDependencies := [],
    publishedArtifacts := [paLib] }

/-- The re-analysis of the same url with status upstream. -/
def recC4b : AnalysisRecord := { recC4a with status := some "upstream" }

/-- Row `artLib` with NULL status. -/
def artLibNull : Artifact := { artLib with status := none }

/-- Row `artLib` with status upstream. -/
def artLibUp : Artifact := { artLib with status := some "upstream" }

/-- A store with an upstream repository owning `artLibNull`. -/
def dbW4 : DB :=
  { repositories := [repoFull], artifacts := [artLibNull],
    plugin_deps := [], artifact_deps := [], next_repo_id := 2, next_artifact_id := 2 }

/-- An analysis publishing org:lib at version 1.0. -/
def recC5a : AnalysisRecord :=
  { repository := { url := "https://r", organization := "org", name := "R" },
    sbtVersion := some "1.9", isPluginContainingRepo := false,
    status := some "not_ported", pluginDependencies := [],
    publishedArtifacts := [paLib] }

/-- An analysis of the same url publishing org:lib at version 2.0. -/
def recC5b : AnalysisRecord := { recC5a with publishedArtifacts := [paLib2] }

/-- An Analysis Record with no `sbtVersion` key and an unseen url. -/
def recC10 : AnalysisRecord :=
  { repository := { url := "https://new", organization := "org", name := "N" },
    sbtVersion := none, isPluginContainingRepo := false,
    status := some "not_ported", pluginDependencies := [], publishedArtifacts := [] }

/-- A repository row with NULL organization, name and sbt_version but
non-null isPluginContainingRepo and status. -/
def repoHalf : Repository :=
  { id := 1, url := "https://r", organization := none, name := none,
    sbt_version := none, is_plugin_containing_repo := some true,
    status := some "upstream" }

/-- A store holding only `repoHalf`. -/
def dbW3 : DB :=
  { repositories := [repoHalf], artifacts := [], plugin_deps := [],
    artifact_deps := [], next_repo_id := 2, next_artifact_id := 1 }

/-- Row `repoHalf` after reconciling `recC3`: the NULL columns are filled from the
record, the non-null ones are untouched. -/
def repoHalfUpd : Repository :=
  { repoHalf with organization := some "neworg", name := some "R2", sbt_version := some "2.0" }

/-- An artifact already linked to repository 5, stored under id 7. -/
def art7 : Artifact :=
  { id := 7, organization := "org", name := "lib", version := "1.0", is_plugin := true,
    repository_id := some 5, subproject := none, is_published := some true,
    scala_version := none, status := some "not_ported" }

/-- A store holding only `art7`. -/
def dbC1 : DB :=
  { repositories := [], artifacts := [art7], plugin_deps := [], artifact_deps := [],
    next_repo_id := 1, next_artifact_id := 8 }

/-- An Analysis Record mentioning org:lib:1.0 only as a plugin dependency
(no repository information for it), not as a published artifact. -/
def recC1 : AnalysisRecord :=
  { repository := { url := "https://r2", organization := "o2", name := "R2" },
    sbtVersion := some "1.9", isPluginContainingRepo := true,
    status := some "not_ported",
    pluginDependencies := [⟨"org", "lib", "1.0"⟩], publishedArtifacts := [] }

/-! ### Properties of the ordering used by `ORDER BY organization, name` -/

/-- Strict lexicographic comparison is asymmetric. -/
theorem charListLtb_asymm : ∀ a b, charListLtb a b = true → charListLtb b a = false := by
  intro a
  induction a with
  | nil =>
    intro b hb
    cases b with
    | nil => simp [charListLtb] at hb
    | cons c cs => simp [charListLtb]
  | cons x xs ih =>
    intro b hb
    cases b with
    | nil => simp [charListLtb] at hb
    | cons c cs =>
      simp only [charListLtb] at hb ⊢
      rcases lt_trichotomy x c with h | h | h
      · simp [h, lt_asymm h]
      · simp [h, lt_irrefl] at hb ⊢
        exact ih cs hb
      · simp [h, lt_asymm h] at hb

/-- Strict lexicographic comparison is transitive. -/
theorem charListLtb_trans : ∀ a b c, charListLtb a b = true → charListLtb b c = true →
    charListLtb a c = true := by
  intro a
  induction a with
  | nil =>
    intro b c hab hbc
    cases c with
    | nil =>
      cases b with
      | nil => simp [charListLtb] at hab
      | cons y ys => simp [charListLtb] at hbc
    | cons z zs => simp [charListLtb]
  | cons x xs ih =>
    intro b c hab hbc
    cases b with
    | nil => simp [charListLtb] at hab
    | cons y ys =>
      cases c with
      | nil => simp [charListLtb] at hbc
      | cons z zs =>
        simp only [charListLtb] at hab hbc ⊢
        rcases lt_trichotomy x y with h1 | h1 | h1
        · rcases lt_trichotomy y z with h2 | h2 | h2
          · simp [lt_trans h1 h2]
          · subst h2; simp [h1]
          · simp [h2, lt_asymm h2] at hbc
        · subst h1
          rcases lt_trichotomy x z with h2 | h2 | h2
          · simp [h2]
          · subst h2
            simp [lt_irrefl] at hab hbc ⊢
            exact ih ys zs hab hbc
          · simp [h2, lt_asymm h2] at hbc
        · simp [h1, lt_asymm h1] at hab

/-- Two lists neither of which compares strictly below the other are equal. -/
theorem charListLtb_conn : ∀ a b, charListLtb a b = false → charListLtb b a = false →
    a = b := by
  intro a
  induction a with
  | nil =>
    intro b hab hba
    cases b with
    | nil => rfl
    | cons c cs => simp [charListLtb] at hab
  | cons x xs ih =>
    intro b hab hba
    cases b with
    | nil => simp [charListLtb] at hba
    | cons c cs =>
      simp only [charListLtb] at hab hba
      rcases lt_trichotomy x c with h | h | h
      · simp [h] at hab
      · subst h
        simp [lt_irrefl] at hab hba
        rw [ih cs hab hba]
      · simp [h, lt_asymm h] at hba

/-- The key comparison is asymmetric. -/
theorem keyLtbL_asymm (o1 n1 o2 n2 : List Char) (h : keyLtbL o1 n1 o2 n2 = true) :
    keyLtbL o2 n2 o1 n1 = false := by
  unfold keyLtbL at h ⊢
  cases h1 : charListLtb o1 o2 with
  | true => simp [charListLtb_asymm o1 o2 h1, h1]
  | false =>
    cases h2 : charListLtb o2 o1 with
    | true => simp [h1, h2] at h
    | false =>
      simp [h1, h2] at h ⊢
      exact charListLtb_asymm n1 n2 h

/-- The key comparison is transitive. -/
theorem keyLtbL_trans (o1 n1 o2 n2 o3 n3 : List Char)
    (h12 : keyLtbL o1 n1 o2 n2 = true) (h23 : keyLtbL o2 n2 o3 n3 = true) :
    keyLtbL o1 n1 o3 n3 = true := by
  unfold keyLtbL at h12 h23 ⊢
  cases h1 : charListLtb o1 o2 with
  | true =>
    cases h2 : charListLtb o2 o3 with
    | true => simp [charListLtb_trans o1 o2 o3 h1 h2]
    | false =>
      cases h3 : charListLtb o3 o2 with
      | true => simp [h2, h3] at h23
      | false =>
        have : o2 = o3 := charListLtb_conn o2 o3 h2 h3
        subst this
        simp [h1]
  | false =>
    cases h2 : charListLtb o2 o1 with
    | true => simp [h1, h2] at h12
    | false =>
      have : o1 = o2 := charListLtb_conn o1 o2 h1 h2
      subst this
      simp [h1] at h12
      cases h3 : charListLtb o1 o3 with
      | true => simp [h3]
      | false =>
        cases h4 : charListLtb o3 o1 with
        | true => simp [h3, h4] at h23
        | false =>
          simp [h3, h4] at h23 ⊢
          exact charListLtb_trans n1 n2 n3 h12 h23

/-- Two keys neither of which compares strictly below the other are equal. -/
theorem keyLtbL_conn (o1 n1 o2 n2 : List Char)
    (h12 : keyLtbL o1 n1 o2 n2 = false) (h21 : keyLtbL o2 n2 o1 n1 = false) :
    o1 = o2 ∧ n1 = n2 := by
  unfold keyLtbL at h12 h21
  cases h1 : charListLtb o1 o2 with
  | true => simp [h1] at h12
  | false =>
    cases h2 : charListLtb o2 o1 with
    | true => simp [h1, h2] at h21
    | false =>
      simp [h1, h2] at h12 h21
      exact ⟨charListLtb_conn o1 o2 h1 h2, charListLtb_conn n1 n2 h12 h21⟩

/-- Relation `rowLe` is total. -/
theorem rowLe_total (x y : PluginDepRow) : rowLe x y ∨ rowLe y x := by
  unfold rowLe keyLtb
  by_cases h : keyLtbL y.organization.data y.name.data x.organization.data x.name.data = false
  · exact Or.inl h
  · right
    have h' : keyLtbL y.organization.data y.name.data x.organization.data x.name.data = true := by
      revert h
      cases keyLtbL y.organization.data y.name.data x.organization.data x.name.data <;> simp
    exact keyLtbL_asymm _ _ _ _ h'

/-- Relation `rowLe` is transitive. -/
theorem rowLe_trans (a b c : PluginDepRow) (hab : rowLe a b) (hbc : rowLe b c) :
    rowLe a c := by
  unfold rowLe keyLtb at hab hbc ⊢
  by_contra hca
  have hca' : keyLtbL c.organization.data c.name.data a.organization.data a.name.data = true := by
    revert hca
    cases keyLtbL c.organization.data c.name.data a.organization.data a.name.data <;> simp
  cases hbc' : keyLtbL b.organization.data b.name.data c.organization.data c.name.data with
  | true =>
    have : keyLtbL b.organization.data b.name.data a.organization.data a.name.data = true :=
      keyLtbL_trans _ _ _ _ _ _ hbc' hca'
    rw [hab] at this
    exact Bool.false_ne_true this
  | false =>
    obtain ⟨ho, hn⟩ := keyLtbL_conn _ _ _ _ hbc hbc'
    rw [ho, hn] at hca'
    rw [hab] at hca'
    exact Bool.false_ne_true hca'

/-! ### Generic list lemmas -/

/-- A property preserved by every step of a fold is preserved by the fold. -/
theorem foldl_preserve {σ α : Type} (P : σ → Prop) (f : σ → α → σ)
    (hf : ∀ s x, P s → P (f s x)) :
    ∀ (l : List α) (s : σ), P s → P (l.foldl f s) := by
  intro l
  induction l with
  | nil => intro s hs; exact hs
  | cons x xs ih => intro s hs; exact ih (f s x) (hf s x hs)

/-- Filtering with a stronger predicate yields at most as many elements. -/
theorem length_filter_mono {α : Type} (l : List α) (p q : α → Bool)
    (h : ∀ a, q a = true → p a = true) :
    (l.filter q).length ≤ (l.filter p).length := by
  induction l with
  | nil => simp
  | cons a t ih =>
    cases hq : q a with
    | true => simp [List.filter_cons, hq, h a hq]; omega
    | false =>
      cases hp : p a with
      | true => simp [List.filter_cons, hq, hp]; omega
      | false => simpa [List.filter_cons, hq, hp] using ih

/-- Filtering with a strictly stronger predicate that excludes a present
element yields strictly fewer elements. -/
theorem length_filter_lt {α : Type} (l : List α) (p q : α → Bool)
    (h : ∀ a, q a = true → p a = true) (a : α) (ha : a ∈ l)
    (hpa : p a = true) (hqa : q a = false) :
    (l.filter q).length < (l.filter p).length := by
  induction l with
  | nil => cases ha
  | cons b t ih =>
    rcases List.mem_cons.1 ha with hb | hat
    · subst hb
      have hle := length_filter_mono t p q h
      simp [List.filter_cons, hpa, hqa]
      omega
    · cases hq : q b with
      | true =>
        have hp := h b hq
        have hlt := ih hat
        simp [List.filter_cons, hq, hp]
        omega
      | false =>
        cases hp : p b with
        | true =>
          have hlt := ih hat
          simp [List.filter_cons, hq, hp]
          omega
        | false => simpa [List.filter_cons, hq, hp] using ih hat

/-! ### C9: deterministic lexicographic ordering of plugin-dependency rows -/

/--
C9: at every repository node the renderer lists that repository's
plugin-dependency edges in lexicographic order by (organization, name),
independently of insertion order: `get_plugin_dependencies` always returns a
list sorted under `rowLe`; for the concrete repository with dependencies on
`zeta` and `alpha` in the same organization, the rendered tree lists `alpha`
before `zeta` even though `zeta`'s edge was inserted first, and reversing the
insertion order of the two edges yields the identical row list.
-/
theorem C9_lexicographic_order :
    (∀ (db : DB) (rid : Nat), List.Sorted rowLe (get_plugin_dependencies db rid)) ∧
    print_dependency_tree orderDB 1 (some "org") (some "R") (some "not_ported") [] [] "" =
      some (["\x1b[31mX\x1b[0m org/R", "├─ ? org:alpha:1.0", "└─ ? org:zeta:1.0"],
        [1], [("org", "zeta"), ("org", "alpha")]) ∧
    get_plugin_dependencies orderDB 1 = get_plugin_dependencies orderDBrev 1 := by
  refine ⟨?_, by decide, by decide⟩
  intro db rid
  exact @List.sorted_insertionSort _ rowLe _ ⟨rowLe_total⟩ ⟨rowLe_trans⟩ _

/-! ### Structural facts about the reconciliation steps -/

/-- Merging never touches the row id. -/
theorem artifact_merge_id (db : DB) (rl : Option Nat) (sp : Option String)
    (pub : Bool) (sv : Option String) (st : Option String) (a : Artifact) :
    (artifact_merge db rl sp pub sv st a).id = a.id := rfl

/-- Merging never replaces a non-null repository link. -/
theorem artifact_merge_link (db : DB) (rl : Option Nat) (sp : Option String)
    (pub : Bool) (sv : Option String) (st : Option String) (a : Artifact)
    (rid : Nat) (h : a.repository_id = some rid) :
    (artifact_merge db rl sp pub sv st a).repository_id = some rid := by
  unfold artifact_merge
  simp [h]

/-- Merging never replaces a non-null status. -/
theorem artifact_merge_status_some (db : DB) (rl : Option Nat) (sp : Option String)
    (pub : Bool) (sv : Option String) (st : Option String) (a : Artifact)
    (s : String) (h : a.status = some s) :
    (artifact_merge db rl sp pub sv st a).status = some s := by
  unfold artifact_merge
  simp [h]

/-- Merging backfills a NULL status from the already-linked repository. -/
theorem artifact_merge_status_backfill (db : DB) (rl : Option Nat)
    (sp : Option String) (pub : Bool) (sv : Option String) (st : Option String)
    (a : Artifact) (rid : Nat) (r : Repository)
    (hlink : a.repository_id = some rid) (hst : a.status = none)
    (hr : db.repositories.find? (fun y => y.id == rid) = some r) :
    (artifact_merge db rl sp pub sv st a).status = r.status := by
  unfold artifact_merge
  simp [hlink, hst, repo_status_lookup, hr]

/-- Function `get_or_create_artifact` touches only the artifacts table and the artifact
id counter. -/
theorem gcart_repositories (db : DB) (o n v : String) (ip : Bool) (rl : Option Nat)
    (sp : Option String) (pub : Bool) (sv : Option String) (st : Option String) :
    (get_or_create_artifact db o n v ip rl sp pub sv st).1.repositories =
      db.repositories := by
  unfold get_or_create_artifact
  cases db.artifacts.find?
    (fun a => a.organization == o && a.name == n && a.version == v) <;> rfl

/-- Function `get_or_create_artifact` leaves the plugin-dependency edges untouched. -/
theorem gcart_plugin_deps (db : DB) (o n v : String) (ip : Bool) (rl : Option Nat)
    (sp : Option String) (pub : Bool) (sv : Option String) (st : Option String) :
    (get_or_create_artifact db o n v ip rl sp pub sv st).1.plugin_deps =
      db.plugin_deps := by
  unfold get_or_create_artifact
  cases db.artifacts.find?
    (fun a => a.organization == o && a.name == n && a.version == v) <;> rfl

/-- Function `get_or_create_artifact` leaves the library-dependency edges untouched. -/
theorem gcart_artifact_deps (db : DB) (o n v : String) (ip : Bool) (rl : Option Nat)
    (sp : Option String) (pub : Bool) (sv : Option String) (st : Option String) :
    (get_or_create_artifact db o n v ip rl sp pub sv st).1.artifact_deps =
      db.artifact_deps := by
  unfold get_or_create_artifact
  cases db.artifacts.find?
    (fun a => a.organization == o && a.name == n && a.version == v) <;> rfl

/-- Inserting a plugin edge touches only the plugin-dependency table. -/
theorem ipde_artifacts (db : DB) (ri ai : Nat) (v : String) :
    (insert_plugin_dependency_edge db ri ai v).artifacts = db.artifacts := by
  unfold insert_plugin_dependency_edge
  split <;> rfl

/-- Inserting a plugin edge keeps repositories. -/
theorem ipde_repositories (db : DB) (ri ai : Nat) (v : String) :
    (insert_plugin_dependency_edge db ri ai v).repositories = db.repositories := by
  unfold insert_plugin_dependency_edge
  split <;> rfl

/-- Inserting a plugin edge keeps the artifact id counter. -/
theorem ipde_next_artifact_id (db : DB) (ri ai : Nat) (v : String) :
    (insert_plugin_dependency_edge db ri ai v).next_artifact_id =
      db.next_artifact_id := by
  unfold insert_plugin_dependency_edge
  split <;> rfl

/-- Inserting a plugin edge never removes an existing edge. -/
theorem ipde_mem (db : DB) (ri ai : Nat) (v : String) (e : PluginDependencyEdge)
    (h : e ∈ db.plugin_deps) :
    e ∈ (insert_plugin_dependency_edge db ri ai v).plugin_deps := by
  unfold insert_plugin_dependency_edge
  split
  · exact h
  · exact List.mem_append_left _ h

/-- Inserting a library edge touches only the library-dependency table. -/
theorem iade_artifacts (db : DB) (d1 d2 : Nat) (v s : String) :
    (insert_artifact_dependency_edge db d1 d2 v s).artifacts = db.artifacts := by
  unfold insert_artifact_dependency_edge
  split <;> rfl

/-- Inserting a library edge keeps repositories. -/
theorem iade_repositories (db : DB) (d1 d2 : Nat) (v s : String) :
    (insert_artifact_dependency_edge db d1 d2 v s).repositories = db.repositories := by
  unfold insert_artifact_dependency_edge
  split <;> rfl

/-- Inserting a library edge keeps the plugin-dependency table. -/
theorem iade_plugin_deps (db : DB) (d1 d2 : Nat) (v s : String) :
    (insert_artifact_dependency_edge db d1 d2 v s).plugin_deps = db.plugin_deps := by
  unfold insert_artifact_dependency_edge
  split <;> rfl

/-- Inserting a library edge keeps the artifact id counter. -/
theorem iade_next_artifact_id (db : DB) (d1 d2 : Nat) (v s : String) :
    (insert_artifact_dependency_edge db d1 d2 v s).next_artifact_id =
      db.next_artifact_id := by
  unfold insert_artifact_dependency_edge
  split <;> rfl

/-- The library-dependency step keeps repositories. -/
theorem ilds_repositories (aid : Nat) (db : DB) (ld : LibraryDependency) :
    (insert_library_dependency_step aid db ld).repositories = db.repositories := by
  unfold insert_library_dependency_step
  rw [iade_repositories, gcart_repositories]

/-- The plugin-dependency step keeps repositories. -/
theorem ipds_repositories (ri : Nat) (db : DB) (pd : PluginDependency) :
    (insert_plugin_dependency_step ri db pd).repositories = db.repositories := by
  unfold insert_plugin_dependency_step
  rw [ipde_repositories, gcart_repositories]

/-- The published-artifact step keeps repositories. -/
theorem ipas_repositories (ri : Nat) (rst : Option String) (db : DB)
    (pa : PublishedArtifact) :
    (insert_published_artifact_step ri rst db pa).repositories = db.repositories := by
  unfold insert_published_artifact_step
  refine foldl_preserve (fun d : DB => d.repositories = db.repositories) _ ?_ _ _ ?_
  · intro s x hs
    dsimp only
    rw [ilds_repositories, hs]
  · dsimp only
    rw [gcart_repositories]

/-- A successful `insert_analysis_run` leaves the repositories table exactly as
the repository-upsert step left it: the plugin-dependency and
published-artifact steps never write to it. -/
theorem run_ok_repositories (db : DB) (rec : AnalysisRecord) (db3 : DB)
    (h : insert_analysis_run db rec = Except.ok db3) :
    ∃ db1 rid, upsert_repository db rec = Except.ok (db1, rid) ∧
      db3.repositories = db1.repositories := by
  unfold insert_analysis_run at h
  split at h
  · cases h
  next s1 heq =>
    refine ⟨s1.1, s1.2, by rw [heq], ?_⟩
    cases h
    refine foldl_preserve (fun d : DB => d.repositories = s1.1.repositories) _ ?_ _ _ ?_
    · intro s x hs
      rw [ipas_repositories, hs]
    · refine foldl_preserve (fun d : DB => d.repositories = s1.1.repositories) _ ?_ _ _ rfl
      intro s x hs
      rw [ipds_repositories, hs]

/-! ### C1: a non-null repository link survives every reconciliation path -/

/-- The fresh row carries the next artifact id. -/
theorem artifact_fresh_id (db : DB) (o n v : String) (ip : Bool) (rl : Option Nat)
    (sp : Option String) (pub : Bool) (sv : Option String) (st : Option String) :
    (artifact_fresh db o n v ip rl sp pub sv st).id = db.next_artifact_id := rfl

/-- Function `get_or_create_artifact` preserves a recorded non-null repository link on
every row carrying a given id, and never lowers the id counter below it. -/
theorem gcart_link (db : DB) (o n v : String) (ip : Bool) (rl : Option Nat)
    (sp : Option String) (pub : Bool) (sv : Option String) (st : Option String)
    (aid rid : Nat)
    (h1 : ∀ a ∈ db.artifacts, a.id = aid → a.repository_id = some rid)
    (h2 : aid < db.next_artifact_id) :
    (∀ a ∈ (get_or_create_artifact db o n v ip rl sp pub sv st).1.artifacts,
      a.id = aid → a.repository_id = some rid) ∧
    aid < (get_or_create_artifact db o n v ip rl sp pub sv st).1.next_artifact_id := by
  unfold get_or_create_artifact
  cases hf : db.artifacts.find?
      (fun a => a.organization == o && a.name == n && a.version == v) with
  | none =>
    constructor
    · intro a ha hid
      rcases List.mem_append.1 ha with h | h
      · exact h1 a h hid
      · simp only [List.mem_singleton] at h
        subst h
        rw [artifact_fresh_id] at hid
        omega
    · exact Nat.lt_succ_of_lt h2
  | some a0 =>
    constructor
    · intro a ha hid
      rcases List.mem_map.1 ha with ⟨x, hx, hfx⟩
      by_cases hxid : (x.id == a0.id) = true
      · rw [if_pos hxid] at hfx
        subst hfx
        rw [artifact_merge_id] at hid
        exact artifact_merge_link db rl sp pub sv st a0 rid
          (h1 a0 (List.mem_of_find?_eq_some hf) hid)
      · rw [if_neg hxid] at hfx
        subst hfx
        exact h1 x hx hid
    · exact h2

/-- The plugin-dependency step preserves a recorded repository link. -/
theorem ipds_link (ri : Nat) (db : DB) (pd : PluginDependency) (aid rid : Nat)
    (h1 : ∀ a ∈ db.artifacts, a.id = aid → a.repository_id = some rid)
    (h2 : aid < db.next_artifact_id) :
    (∀ a ∈ (insert_plugin_dependency_step ri db pd).artifacts,
      a.id = aid → a.repository_id = some rid) ∧
    aid < (insert_plugin_dependency_step ri db pd).next_artifact_id := by
  unfold insert_plugin_dependency_step
  rw [ipde_artifacts, ipde_next_artifact_id]
  exact gcart_link db pd.organization pd.name pd.version true none none true none
    none aid rid h1 h2

/-- The library-dependency step preserves a recorded repository link. -/
theorem ilds_link (di : Nat) (db : DB) (ld : LibraryDependency) (aid rid : Nat)
    (h1 : ∀ a ∈ db.artifacts, a.id = aid → a.repository_id = some rid)
    (h2 : aid < db.next_artifact_id) :
    (∀ a ∈ (insert_library_dependency_step di db ld).artifacts,
      a.id = aid → a.repository_id = some rid) ∧
    aid < (insert_library_dependency_step di db ld).next_artifact_id := by
  unfold insert_library_dependency_step
  rw [iade_artifacts, iade_next_artifact_id]
  exact gcart_link db ld.organization ld.name ld.version false none none true none
    none aid rid h1 h2

/-- The published-artifact step preserves a recorded repository link. -/
theorem ipas_link (ri : Nat) (rst : Option String) (db : DB) (pa : PublishedArtifact)
    (aid rid : Nat)
    (h1 : ∀ a ∈ db.artifacts, a.id = aid → a.repository_id = some rid)
    (h2 : aid < db.next_artifact_id) :
    (∀ a ∈ (insert_published_artifact_step ri rst db pa).artifacts,
      a.id = aid → a.repository_id = some rid) ∧
    aid < (insert_published_artifact_step ri rst db pa).next_artifact_id := by
  unfold insert_published_artifact_step
  refine foldl_preserve
    (fun d : DB => (∀ a ∈ d.artifacts, a.id = aid → a.repository_id = some rid) ∧
      aid < d.next_artifact_id) _ ?_ _ _ ?_
  · intro s x hs
    exact ilds_link _ s x aid rid hs.1 hs.2
  · exact gcart_link db pa.organization pa.name pa.version pa.is_plugin (some ri)
      pa.subproject (pa.is_published.getD true) pa.scala_version rst aid rid h1 h2

/-- The repository upsert never touches the artifacts table. -/
theorem upsert_ok_artifacts (db : DB) (rec : AnalysisRecord) (db1 : DB) (rid1 : Nat)
    (h : upsert_repository db rec = Except.ok (db1, rid1)) :
    db1.artifacts = db.artifacts ∧ db1.plugin_deps = db.plugin_deps ∧
    db1.artifact_deps = db.artifact_deps ∧
    db1.next_artifact_id = db.next_artifact_id := by
  unfold upsert_repository at h
  split at h
  · split at h
    · cases h
    · cases h
      exact ⟨rfl, rfl, rfl, rfl⟩
  · split at h
    · cases h
    · cases h
      exact ⟨rfl, rfl, rfl, rfl⟩

/--
C1: for every artifact row whose stored `repository_id` is a non-null value,
reconciling any Analysis Record — one that does not mention the artifact as
published, or mentions it only as a dependency with no repository information,
or in any other way — leaves that `repository_id` unchanged and in particular
never sets it to NULL.  The hypotheses say that every row stored under the
artifact's id carries the link `some rid` and that the id is below the
AUTOINCREMENT counter (which the store guarantees for every existing row).
-/
theorem C1_repository_link_preserved (db : DB) (rec : AnalysisRecord) (aid rid : Nat)
    (h1 : ∀ a ∈ db.artifacts, a.id = aid → a.repository_id = some rid)
    (h2 : aid < db.next_artifact_id) :
    ∀ a ∈ (insert_analysis db rec).1.artifacts, a.id = aid →
      a.repository_id = some rid := by
  unfold insert_analysis
  cases hrun : insert_analysis_run db rec with
  | error e => exact h1
  | ok db3 =>
    unfold insert_analysis_run at hrun
    split at hrun
    · cases hrun
    next s1 heq =>
      cases hrun
      obtain ⟨ha, hp, hd, hn⟩ := upsert_ok_artifacts db rec s1.1 s1.2 heq
      have hbase : (∀ a ∈ s1.1.artifacts, a.id = aid → a.repository_id = some rid) ∧
          aid < s1.1.next_artifact_id := by
        rw [ha, hn]
        exact ⟨h1, h2⟩
      have hfold2 := foldl_preserve
        (fun d : DB => (∀ a ∈ d.artifacts, a.id = aid → a.repository_id = some rid) ∧
          aid < d.next_artifact_id)
        (insert_plugin_dependency_step s1.2) ?_ rec.pluginDependencies s1.1 hbase
      · have hfold3 := foldl_preserve
          (fun d : DB => (∀ a ∈ d.artifacts, a.id = aid → a.repository_id = some rid) ∧
            aid < d.next_artifact_id)
          (insert_published_artifact_step s1.2 rec.status) ?_ rec.publishedArtifacts
          _ hfold2
        · exact hfold3.1
        · intro s x hs
          exact ipas_link _ _ s x aid rid hs.1 hs.2
      · intro s x hs
        exact ipds_link _ s x aid rid hs.1 hs.2

/--
Witness for C1 at a concrete input: the store `dbC1` holds `art7` (linked to
repository 5); reconciling `recC1`, which mentions org:lib:1.0 only as a
plugin dependency with no repository information, keeps `art7` in the store
with its link intact.
-/
theorem C1_repository_link_preserved_witness :
    art7 ∈ (insert_analysis dbC1 recC1).1.artifacts ∧
    art7.repository_id = some 5 :=
  ⟨by decide,
   C1_repository_link_preserved dbC1 recC1 7 5 (by decide) (by decide) art7
     (by decide) rfl⟩

/-! ### C6: one ingestion is atomic -/

/--
C6: ingestion of one Analysis Record is atomic.  The only commit in
`insert_analysis` happens after the whole try-block succeeds; when any
exception is raised at any point, the accumulated changes are rolled back
before the error propagates, so the observable store is exactly the
pre-ingestion store.
-/
theorem C6_ingestion_atomic (db : DB) (rec : AnalysisRecord)
    (h : (insert_analysis db rec).2.isSome = true) :
    (insert_analysis db rec).1 = db := by
  unfold insert_analysis at h ⊢
  cases hrun : insert_analysis_run db rec with
  | ok db2 =>
    rw [hrun] at h
    simp at h
  | error e => rfl

/--
Witness for C6 at a concrete input: ingesting `recC10` (no `sbtVersion` key,
unseen url) into the empty store raises, and the store afterwards is exactly
the empty store.
-/
theorem C6_ingestion_atomic_witness :
    (insert_analysis DB.empty recC10).2.isSome = true ∧
    (insert_analysis DB.empty recC10).1 = DB.empty :=
  ⟨by decide, C6_ingestion_atomic DB.empty recC10 (by decide)⟩

/-! ### C10: a fresh url requires the undocumented `sbtVersion` key -/

/--
C10: ingesting an Analysis Record whose repository url is not yet stored
requires the top-level `sbtVersion` field (not part of the spec's Analysis
Record shape): when the key is absent, the ingestion raises `KeyError`
before the repository row is committed, the transaction is rolled back, and
the store — in particular its repositories table — is exactly as before, with
no new repository row.
-/
theorem C10_missing_sbtVersion_key (db : DB) (rec : AnalysisRecord)
    (h1 : rec.sbtVersion = none)
    (h2 : db.repositories.find? (fun r => r.url == rec.repository.url) = none) :
    insert_analysis db rec = (db, some (PyError.keyError "sbtVersion")) := by
  unfold insert_analysis insert_analysis_run upsert_repository
  rw [h2, h1]

/--
Witness for C10 at a concrete input: `recC10` has no `sbtVersion` key and an
unseen url; ingesting it into the empty store yields the untouched store and
the `KeyError`.
-/
theorem C10_missing_sbtVersion_key_witness :
    insert_analysis DB.empty recC10 = (DB.empty, some (PyError.keyError "sbtVersion")) :=
  C10_missing_sbtVersion_key DB.empty recC10 rfl (by decide)

/-! ### C2: plugin-dependency edges accumulate, they are never deleted -/

/-- The plugin-dependency step never removes an edge. -/
theorem ipds_mem (ri : Nat) (db : DB) (pd : PluginDependency)
    (e : PluginDependencyEdge) (h : e ∈ db.plugin_deps) :
    e ∈ (insert_plugin_dependency_step ri db pd).plugin_deps := by
  unfold insert_plugin_dependency_step
  refine ipde_mem _ _ _ _ _ ?_
  rw [gcart_plugin_deps]
  exact h

/-- The library-dependency step keeps the plugin-dependency table. -/
theorem ilds_plugin_deps (di : Nat) (db : DB) (ld : LibraryDependency) :
    (insert_library_dependency_step di db ld).plugin_deps = db.plugin_deps := by
  unfold insert_library_dependency_step
  rw [iade_plugin_deps, gcart_plugin_deps]

/-- The published-artifact step keeps the plugin-dependency table. -/
theorem ipas_plugin_deps (ri : Nat) (rst : Option String) (db : DB)
    (pa : PublishedArtifact) :
    (insert_published_artifact_step ri rst db pa).plugin_deps = db.plugin_deps := by
  unfold insert_published_artifact_step
  refine foldl_preserve (fun d : DB => d.plugin_deps = db.plugin_deps) _ ?_ _ _ ?_
  · intro s x hs
    dsimp only
    rw [ilds_plugin_deps, hs]
  · dsimp only
    rw [gcart_plugin_deps]

/--
Counterexample to C2 as stated: reconciling a record listing plugin
dependencies P1 = org:p1 and P2 = org:p2 for repository R into the empty
store, then reconciling a second record for R listing only P2, leaves BOTH
edges stored — the edge to artifact 1 (named p1) and the edge to artifact 2
(named p2) — not "exactly the set declared by the latest record":
reconciliation never deletes plugin-dependency edges.
-/
theorem C2_counterexample :
    (insert_analysis (insert_analysis DB.empty recPlugins1).1 recPlugins2).1.plugin_deps =
      [⟨1, 1, "1.0"⟩, ⟨1, 2, "1.0"⟩] ∧
    ((insert_analysis (insert_analysis DB.empty recPlugins1).1
        recPlugins2).1.artifacts.find? (fun a => a.id == 1)).map (fun a => a.name) =
      some "p1" := by
  constructor
  · decide
  · decide

/--
C2 as amended: reconciliation does not delete any plugin-dependency edge; it
OR-IGNORE-inserts one edge per declared plugin dependency, so every edge
stored before an ingestion is still stored afterwards; in the {P1, P2} then
{P2} scenario for repository R the stored edge set is exactly the accumulated
{P1, P2}.
-/
theorem C2_edges_accumulate (db : DB) (rec : AnalysisRecord)
    (e : PluginDependencyEdge) (h : e ∈ db.plugin_deps) :
    e ∈ (insert_analysis db rec).1.plugin_deps := by
  unfold insert_analysis
  cases hrun : insert_analysis_run db rec with
  | error _ => exact h
  | ok db3 =>
    unfold insert_analysis_run at hrun
    split at hrun
    · cases hrun
    next s1 heq =>
      cases hrun
      obtain ⟨-, hp, -, -⟩ := upsert_ok_artifacts db rec s1.1 s1.2 heq
      have hbase : e ∈ s1.1.plugin_deps := by
        rw [hp]
        exact h
      have hfold2 := foldl_preserve (fun d : DB => e ∈ d.plugin_deps)
        (insert_plugin_dependency_step s1.2) ?_ rec.pluginDependencies s1.1 hbase
      · refine foldl_preserve (fun d : DB => e ∈ d.plugin_deps)
          (insert_published_artifact_step s1.2 rec.status) ?_ rec.publishedArtifacts
          _ hfold2
        intro s x hs
        dsimp only
        rw [ipas_plugin_deps]
        exact hs
      · intro s x hs
        exact ipds_mem _ s x e hs

/--
Witness for C2's amended statement at a concrete input: the P1 edge stored by
the first record is still stored after reconciling the second record, which
does not declare P1.
-/
theorem C2_edges_accumulate_witness :
    (⟨1, 1, "1.0"⟩ : PluginDependencyEdge) ∈
      (insert_analysis (insert_analysis DB.empty recPlugins1).1
        recPlugins2).1.plugin_deps :=
  C2_edges_accumulate (insert_analysis DB.empty recPlugins1).1 recPlugins2
    ⟨1, 1, "1.0"⟩ (by decide)

/-! ### C3: a stored repository's non-null fields survive re-analysis -/

/-- Characterization of the repository upsert when the url is already stored:
the returned id is the stored row's id and the repositories table is the old
table with that row's NULL columns filled in from the record. -/
theorem upsert_found (db : DB) (rec : AnalysisRecord) (r : Repository) (db1 : DB)
    (rid1 : Nat)
    (hfind : db.repositories.find? (fun x => x.url == rec.repository.url) = some r)
    (hok : upsert_repository db rec = Except.ok (db1, rid1)) :
    rid1 = r.id ∧ ∃ sbtv : Option String,
      db1.repositories = db.repositories.map (fun x =>
        if x.id == r.id then
          { r with
            organization :=
              if r.organization.isNone then some rec.repository.organization
              else r.organization,
            name := if r.name.isNone then some rec.repository.name else r.name,
            sbt_version := sbtv,
            is_plugin_containing_repo :=
              if r.is_plugin_containing_repo.isNone then
                some rec.isPluginContainingRepo
              else r.is_plugin_containing_repo,
            status := if r.status.isNone then rec.status else r.status }
        else x) := by
  unfold upsert_repository at hok
  split at hok
  next r2 heq =>
    rw [hfind] at heq
    cases heq
    split at hok
    · cases hok
    next sbtv heq2 =>
      cases hok
      exact ⟨rfl, sbtv, rfl⟩
  next heq =>
    rw [hfind] at heq
    cases heq

/--
Counterexample to C3 as stated: `dbC3` stores `repoFull` (organization
oldorg, status upstream, every reconciled column non-null) under the url of
`recC3`, which supplies organization neworg and status not_ported; after
reconciliation the stored organization is still oldorg and the stored status
still upstream — nothing is overwritten, against the claim's "overwrites ...
unconditionally".
-/
theorem C3_counterexample :
    (insert_analysis dbC3 recC3).1.repositories.map (fun r => r.organization) =
      [some "oldorg"] ∧
    (insert_analysis dbC3 recC3).1.repositories.map (fun r => r.status) =
      [some "upstream"] ∧
    recC3.repository.organization = "neworg" ∧
    recC3.status = some "not_ported" :=
  ⟨by decide, by decide, rfl, rfl⟩

/--
C3 as amended: when the record's url is already stored, reconciliation fills
in only the NULL columns of the stored repository row; whichever of
organization, name, isPluginContainingRepo and status are non-null keep their
stored values (the ids hypothesis is the store's PRIMARY KEY uniqueness).
-/
theorem C3_null_fill_only (db : DB) (rec : AnalysisRecord) (r : Repository)
    (hnd : (db.repositories.map (fun x => x.id)).Nodup)
    (hfind : db.repositories.find? (fun x => x.url == rec.repository.url) = some r) :
    ∀ r2 ∈ (insert_analysis db rec).1.repositories, r2.id = r.id →
      (r.organization.isSome = true → r2.organization = r.organization) ∧
      (r.name.isSome = true → r2.name = r.name) ∧
      (r.is_plugin_containing_repo.isSome = true →
        r2.is_plugin_containing_repo = r.is_plugin_containing_repo) ∧
      (r.status.isSome = true → r2.status = r.status) := by
  intro r2 hmem hid
  unfold insert_analysis at hmem
  cases hrun : insert_analysis_run db rec with
  | error e =>
    rw [hrun] at hmem
    have hr2 : r2 = r :=
      List.inj_on_of_nodup_map hnd hmem (List.mem_of_find?_eq_some hfind) hid
    subst hr2
    exact ⟨fun _ => rfl, fun _ => rfl, fun _ => rfl, fun _ => rfl⟩
  | ok db3 =>
    rw [hrun] at hmem
    obtain ⟨db1, rid1, hok, hrep⟩ := run_ok_repositories db rec db3 hrun
    rw [hrep] at hmem
    obtain ⟨-, sbtv, hmap⟩ := upsert_found db rec r db1 rid1 hfind hok
    rw [hmap] at hmem
    rcases List.mem_map.1 hmem with ⟨x, hx, hfx⟩
    by_cases hxid : (x.id == r.id) = true
    · rw [if_pos hxid] at hfx
      subst hfx
      refine ⟨?_, ?_, ?_, ?_⟩ <;> intro hs
      · cases horg : r.organization with
        | none => rw [horg] at hs; simp at hs
        | some o => simp [horg]
      · cases hname : r.name with
        | none => rw [hname] at hs; simp at hs
        | some o => simp [hname]
      · cases hipc : r.is_plugin_containing_repo with
        | none => rw [hipc] at hs; simp at hs
        | some o => simp [hipc]
      · cases hst : r.status with
        | none => rw [hst] at hs; simp at hs
        | some o => simp [hst]
    · rw [if_neg hxid] at hfx
      subst hfx
      exact absurd (by simp [hid]) hxid

/--
Witness for C3's amended statement at a concrete input: reconciling `recC3`
over `dbW3` fills the NULL organization, name and sbt_version of `repoHalf`
and leaves its non-null status untouched.
-/
theorem C3_null_fill_only_witness :
    repoHalfUpd ∈ (insert_analysis dbW3 recC3).1.repositories ∧
    repoHalfUpd.status = repoHalf.status :=
  ⟨by decide,
   (C3_null_fill_only dbW3 recC3 repoHalf (by decide) (by decide) repoHalfUpd
     (by decide) rfl).2.2.2 (by decide)⟩

/-! ### C4: artifact status is inherited only into NULL status -/

/-- The fresh row's status is backfilled from the supplied repository link
when no status is supplied and the linked repository row exists. -/
theorem artifact_fresh_status_backfill (db : DB) (o n v : String) (ip : Bool)
    (rl : Option Nat) (sp : Option String) (pub : Bool) (sv : Option String)
    (st : Option String) (rid : Nat) (r : Repository)
    (hst : st = none) (hrl : rl = some rid)
    (hr : db.repositories.find? (fun y => y.id == rid) = some r) :
    (artifact_fresh db o n v ip rl sp pub sv st).status = r.status := by
  subst hst hrl
  unfold artifact_fresh
  simp [repo_status_lookup, hr]

/--
Counterexample to C4 as stated: `dbC4` stores `artLib` (status not_ported)
owned by the upstream repository `repoFull`; reconciling `recC4`, which lists
org:lib:1.0 as a published artifact of that repository with status upstream,
leaves the artifact's stored status not_ported — the repository status does
NOT override the previously stored artifact status.
-/
theorem C4_counterexample :
    (insert_analysis dbC4 recC4).1.artifacts.map (fun a => a.status) =
      [some "not_ported"] ∧
    (insert_analysis dbC4 recC4).1.repositories.map (fun r => r.status) =
      [some "upstream"] ∧
    recC4.status = some "upstream" :=
  ⟨by decide, by decide, rfl⟩

/--
C4 as amended: reconciliation writes a status into an artifact only where the
stored status is NULL.  (a) A stored non-null status survives
`get_or_create_artifact` untouched; (b) a stored NULL status with a non-null
repository link is backfilled with the owning repository's status; (c) a
newly created artifact with a repository link and no supplied status gets the
linked repository's status; and (d) in the concrete regression scenario, an
artifact created with only a repository link and no status reports status
upstream after its repository is re-analyzed with status upstream.
-/
theorem C4_status_null_fill_only (db : DB) (o n v : String) (ip : Bool)
    (rl : Option Nat) (sp : Option String) (pub : Bool) (sv : Option String)
    (st : Option String) :
    (∀ (a : Artifact) (s : String),
      db.artifacts.find?
        (fun x => x.organization == o && x.name == n && x.version == v) = some a →
      a.status = some s →
      ∀ x ∈ (get_or_create_artifact db o n v ip rl sp pub sv st).1.artifacts,
        x.id = a.id → x.status = some s) ∧
    (∀ (a : Artifact) (rid : Nat) (r : Repository),
      db.artifacts.find?
        (fun x => x.organization == o && x.name == n && x.version == v) = some a →
      a.repository_id = some rid → a.status = none →
      db.repositories.find? (fun y => y.id == rid) = some r →
      ∀ x ∈ (get_or_create_artifact db o n v ip rl sp pub sv st).1.artifacts,
        x.id = a.id → x.status = r.status) ∧
    (∀ (rid : Nat) (r : Repository),
      db.artifacts.find?
        (fun x => x.organization == o && x.name == n && x.version == v) = none →
      st = none → rl = some rid →
      db.repositories.find? (fun y => y.id == rid) = some r →
      (∀ y ∈ db.artifacts, y.id < db.next_artifact_id) →
      ∀ x ∈ (get_or_create_artifact db o n v ip rl sp pub sv st).1.artifacts,
        x.id = db.next_artifact_id → x.status = r.status) ∧
    (insert_analysis (insert_analysis DB.empty recC4a).1 recC4b).1.artifacts.map
      (fun a => a.status) = [some "upstream"] := by
  refine ⟨?_, ?_, ?_, by decide⟩
  · intro a s hfind hst x
    unfold get_or_create_artifact
    cases hf : db.artifacts.find?
        (fun x => x.organization == o && x.name == n && x.version == v) with
    | none =>
      rw [hfind] at hf
      cases hf
    | some a0 =>
      rw [hfind] at hf
      cases hf
      intro hx hid
      rcases List.mem_map.1 hx with ⟨y, hy, hfy⟩
      by_cases hyid : (y.id == a.id) = true
      · rw [if_pos hyid] at hfy
        subst hfy
        exact artifact_merge_status_some db rl sp pub sv st a s hst
      · rw [if_neg hyid] at hfy
        subst hfy
        exact absurd (by simp [hid]) hyid
  · intro a rid r hfind hlink hst hr x
    unfold get_or_create_artifact
    cases hf : db.artifacts.find?
        (fun x => x.organization == o && x.name == n && x.version == v) with
    | none =>
      rw [hfind] at hf
      cases hf
    | some a0 =>
      rw [hfind] at hf
      cases hf
      intro hx hid
      rcases List.mem_map.1 hx with ⟨y, hy, hfy⟩
      by_cases hyid : (y.id == a.id) = true
      · rw [if_pos hyid] at hfy
        subst hfy
        exact artifact_merge_status_backfill db rl sp pub sv st a rid r hlink hst hr
      · rw [if_neg hyid] at hfy
        subst hfy
        exact absurd (by simp [hid]) hyid
  · intro rid r hfind hst hrl hr hbound x
    unfold get_or_create_artifact
    cases hf : db.artifacts.find?
        (fun x => x.organization == o && x.name == n && x.version == v) with
    | some a0 =>
      rw [hfind] at hf
      cases hf
    | none =>
      intro hx hid
      rcases List.mem_append.1 hx with h | h
      · have := hbound x h
        omega
      · simp only [List.mem_singleton] at h
        subst h
        exact artifact_fresh_status_backfill db o n v ip rl sp pub sv st rid r hst hrl hr

/--
Witness for C4's amended statement at a concrete input: `dbW4` stores
`artLibNull` (NULL status, linked to the upstream repository `repoFull`);
resolving the artifact again backfills the status to the repository's
upstream.
-/
theorem C4_status_null_fill_only_witness :
    artLibUp ∈ (get_or_create_artifact dbW4 "org" "lib" "1.0" false (some 1) none
      true none (some "upstream")).1.artifacts ∧
    artLibUp.status = repoFull.status :=
  ⟨by decide,
   (C4_status_null_fill_only dbW4 "org" "lib" "1.0" false (some 1) none true none
     (some "upstream")).2.1 artLibNull 1 repoFull (by decide) rfl rfl (by decide)
     artLibUp (by decide) rfl⟩

/-! ### C5: artifact identity in reconciliation includes the version -/

/-- An id-keyed row update leaves a list untouched when no row carries the
id. -/
theorem map_update_of_fresh (l : List Artifact) (i : Nat) (a2 : Artifact)
    (h : ∀ y ∈ l, (y.id == i) = false) :
    l.map (fun x => if x.id == i then a2 else x) = l := by
  induction l with
  | nil => rfl
  | cons x xs ih =>
    simp only [List.map_cons]
    rw [if_neg (by simp [h x (List.mem_cons_self x xs)]),
      ih (fun y hy => h y (List.mem_cons_of_mem x hy))]

/-- An id-keyed row update with distinct ids changes exactly one row, so a
filter whose predicate does not distinguish the old and new row counts the
same number of rows. -/
theorem length_filter_map_update (l : List Artifact) (a0 a2 : Artifact)
    (hnd : (l.map (fun a => a.id)).Nodup) (hmem : a0 ∈ l)
    (p : Artifact → Bool) (hp : p a2 = p a0) :
    ((l.map (fun x => if x.id == a0.id then a2 else x)).filter p).length =
      (l.filter p).length := by
  induction l with
  | nil => cases hmem
  | cons x xs ih =>
    rw [List.map_cons] at hnd
    obtain ⟨hx_notin, hnd_xs⟩ := List.nodup_cons.1 hnd
    rcases List.mem_cons.1 hmem with hx | hxs
    · subst hx
      rw [List.map_cons, if_pos (by simp),
        map_update_of_fresh xs a0.id a2 (fun y hy => by
          simp only [beq_eq_false_iff_ne, ne_eq]
          intro hcontra
          exact hx_notin (hcontra ▸ List.mem_map_of_mem (fun a => a.id) hy))]
      cases hpa : p a0 with
      | true => simp [List.filter_cons, hpa, hp]
      | false => simp [List.filter_cons, hpa, hp]
    · have hxne : (x.id == a0.id) = false := by
        simp only [beq_eq_false_iff_ne, ne_eq]
        intro hcontra
        exact hx_notin (hcontra ▸ List.mem_map_of_mem (fun a => a.id) hxs)
      rw [List.map_cons, if_neg (by simp [hxne])]
      have htail := ih hnd_xs hxs
      cases hpx : p x with
      | true =>
        rw [List.filter_cons, List.filter_cons, hpx, if_pos rfl, if_pos rfl]
        simp only [List.length_cons]
        omega
      | false =>
        rw [List.filter_cons, List.filter_cons, hpx,
          if_neg (by simp), if_neg (by simp)]
        exact htail

/-- An id-keyed row update preserves the list of row ids when the new row
keeps the id. -/
theorem map_update_ids (l : List Artifact) (i : Nat) (a2 : Artifact)
    (hid : a2.id = i) :
    (l.map (fun x => if x.id == i then a2 else x)).map (fun a => a.id) =
      l.map (fun a => a.id) := by
  induction l with
  | nil => rfl
  | cons x xs ih =>
    simp only [List.map_cons, ih]
    by_cases hx : (x.id == i) = true
    · have hxi : x.id = i := by simpa using hx
      rw [if_pos hx, hid, hxi]
    · rw [if_neg hx]

/-- Appending a row the filter rejects does not change the filtered rows. -/
theorem filter_append_excluded (l : List Artifact) (x : Artifact)
    (p : Artifact → Bool) (hx : p x = false) :
    (l ++ [x]).filter p = l.filter p := by
  rw [List.filter_append, List.filter_cons]
  simp [hx]

/-- Function `get_or_create_artifact` preserves well-formedness of the artifacts table:
it updates the single row matching the (organization, name, version) key when
one exists and appends a fresh row with a fresh id otherwise. -/
theorem gcart_wf (db : DB) (o n v : String) (ip : Bool) (rl : Option Nat)
    (sp : Option String) (pub : Bool) (sv : Option String) (st : Option String)
    (hwf : ArtifactTableWF db) :
    ArtifactTableWF (get_or_create_artifact db o n v ip rl sp pub sv st).1 := by
  obtain ⟨h1, h2, h3⟩ := hwf
  unfold get_or_create_artifact
  cases hf : db.artifacts.find?
      (fun a => a.organization == o && a.name == n && a.version == v) with
  | some a0 =>
    have hmem := List.mem_of_find?_eq_some hf
    refine ⟨?_, ?_, ?_⟩
    · intro o' n' v'
      unfold artifact_rows_for
      rw [length_filter_map_update db.artifacts a0
        (artifact_merge db rl sp pub sv st a0) h2 hmem
        (fun a => a.organization == o' && a.name == n' && a.version == v') rfl]
      exact h1 o' n' v'
    · rw [map_update_ids db.artifacts a0.id (artifact_merge db rl sp pub sv st a0)
        (artifact_merge_id db rl sp pub sv st a0)]
      exact h2
    · intro a ha
      rcases List.mem_map.1 ha with ⟨y, hy, hfy⟩
      by_cases hyid : (y.id == a0.id) = true
      · rw [if_pos hyid] at hfy
        subst hfy
        rw [artifact_merge_id]
        exact h3 a0 hmem
      · rw [if_neg hyid] at hfy
        subst hfy
        exact h3 y hy
  | none =>
    refine ⟨?_, ?_, ?_⟩
    · intro o' n' v'
      by_cases ho : o = o'
      · by_cases hn : n = n'
        · by_cases hv : v = v'
          · subst ho hn hv
            unfold artifact_rows_for
            have hnil : db.artifacts.filter
                (fun a => a.organization == o && a.name == n && a.version == v) = [] :=
              List.filter_eq_nil_iff.2
                (fun x hx => by simpa using List.find?_eq_none.1 hf x hx)
            dsimp only
            rw [List.filter_append, hnil]
            have := List.length_filter_le
              (fun a : Artifact => a.organization == o && a.name == n && a.version == v)
              [artifact_fresh db o n v ip rl sp pub sv st]
            simpa using this
          · unfold artifact_rows_for
            dsimp only
            rw [filter_append_excluded _ _ _ (by
              show ((o == o') && (n == n') && (v == v')) = false
              simp [hv])]
            exact h1 o' n' v'
        · unfold artifact_rows_for
          dsimp only
          rw [filter_append_excluded _ _ _ (by
            show ((o == o') && (n == n') && (v == v')) = false
            simp [hn])]
          exact h1 o' n' v'
      · unfold artifact_rows_for
        dsimp only
        rw [filter_append_excluded _ _ _ (by
          show ((o == o') && (n == n') && (v == v')) = false
          simp [ho])]
        exact h1 o' n' v'
    · dsimp only
      rw [List.map_append]
      refine List.Nodup.append h2 (by simp) ?_
      intro i hil hir
      simp only [List.map_cons, List.map_nil, List.mem_singleton] at hir
      rcases List.mem_map.1 hil with ⟨y, hy, hfy⟩
      have := h3 y hy
      rw [artifact_fresh_id] at hir
      omega
    · intro a ha
      dsimp only at ha ⊢
      rcases List.mem_append.1 ha with h | h
      · have := h3 a h
        omega
      · simp only [List.mem_singleton] at h
        subst h
        rw [artifact_fresh_id]
        omega

/-- Well-formedness only reads the artifacts table and the artifact id
counter. -/
theorem wf_of_same_artifacts (db1 db2 : DB) (ha : db2.artifacts = db1.artifacts)
    (hn : db2.next_artifact_id = db1.next_artifact_id)
    (h : ArtifactTableWF db1) : ArtifactTableWF db2 := by
  obtain ⟨h1, h2, h3⟩ := h
  refine ⟨?_, ?_, ?_⟩
  · intro o n v
    unfold artifact_rows_for
    rw [ha]
    exact h1 o n v
  · rw [ha]
    exact h2
  · intro a hmem
    rw [hn]
    exact h3 a (by rw [ha] at hmem; exact hmem)

/-- The plugin-dependency step preserves artifacts-table well-formedness. -/
theorem ipds_wf (ri : Nat) (db : DB) (pd : PluginDependency)
    (h : ArtifactTableWF db) :
    ArtifactTableWF (insert_plugin_dependency_step ri db pd) := by
  unfold insert_plugin_dependency_step
  exact wf_of_same_artifacts _ _ (ipde_artifacts _ _ _ _) (ipde_next_artifact_id _ _ _ _)
    (gcart_wf db pd.organization pd.name pd.version true none none true none none h)

/-- The library-dependency step preserves artifacts-table well-formedness. -/
theorem ilds_wf (di : Nat) (db : DB) (ld : LibraryDependency)
    (h : ArtifactTableWF db) :
    ArtifactTableWF (insert_library_dependency_step di db ld) := by
  unfold insert_library_dependency_step
  exact wf_of_same_artifacts _ _ (iade_artifacts _ _ _ _ _) (iade_next_artifact_id _ _ _ _ _)
    (gcart_wf db ld.organization ld.name ld.version false none none true none none h)

/-- The published-artifact step preserves artifacts-table well-formedness. -/
theorem ipas_wf (ri : Nat) (rst : Option String) (db : DB) (pa : PublishedArtifact)
    (h : ArtifactTableWF db) :
    ArtifactTableWF (insert_published_artifact_step ri rst db pa) := by
  unfold insert_published_artifact_step
  refine foldl_preserve ArtifactTableWF _ ?_ _ _ ?_
  · intro s x hs
    exact ilds_wf _ s x hs
  · exact gcart_wf db pa.organization pa.name pa.version pa.is_plugin (some ri)
      pa.subproject (pa.is_published.getD true) pa.scala_version rst h

/--
Counterexample to C5 as stated: ingesting into the empty store one record
publishing org:lib at version 1.0 and then a second record publishing org:lib
at version 2.0 leaves TWO artifact rows for the (org, lib) pair —
reconciliation keys artifacts by (organization, name, version), not by
(organization, name).
-/
theorem C5_counterexample :
    ((insert_analysis (insert_analysis DB.empty recC5a).1 recC5b).1.artifacts.filter
      (fun a => a.organization == "org" && a.name == "lib")).length = 2 ∧
    paLib.version = "1.0" ∧ paLib2.version = "2.0" :=
  ⟨by decide, rfl, rfl⟩

/--
C5 as amended: under reconciliation the store retains at most one artifact
row per (organization, name, version) triple — the uniqueness the
with-version schema of `insert_analysis.py` actually maintains; uniqueness
per (organization, name) is established only by the separate one-time
migration `migrate_remove_artifact_version.py`, not by reconciliation.
-/
theorem C5_unique_per_coordinate_and_version (db : DB) (rec : AnalysisRecord)
    (hwf : ArtifactTableWF db) :
    ∀ o n v, (artifact_rows_for (insert_analysis db rec).1 o n v).length ≤ 1 := by
  suffices h : ArtifactTableWF (insert_analysis db rec).1 from h.1
  unfold insert_analysis
  cases hrun : insert_analysis_run db rec with
  | error e => exact hwf
  | ok db3 =>
    unfold insert_analysis_run at hrun
    split at hrun
    · cases hrun
    next s1 heq =>
      cases hrun
      obtain ⟨ha, -, -, hn⟩ := upsert_ok_artifacts db rec s1.1 s1.2 heq
      have hbase : ArtifactTableWF s1.1 := wf_of_same_artifacts db s1.1 ha hn hwf
      have hfold2 := foldl_preserve ArtifactTableWF
        (insert_plugin_dependency_step s1.2) (fun s x hs => ipds_wf _ s x hs)
        rec.pluginDependencies s1.1 hbase
      exact foldl_preserve ArtifactTableWF
        (insert_published_artifact_step s1.2 rec.status)
        (fun s x hs => ipas_wf _ _ s x hs) rec.publishedArtifacts _ hfold2

/--
Witness for C5's amended statement at a concrete input: after ingesting
`recC5a` into the empty store, the (org, lib, 1.0) coordinate is stored at
most once.
-/
theorem C5_unique_per_coordinate_and_version_witness :
    (artifact_rows_for (insert_analysis DB.empty recC5a).1 "org" "lib" "1.0").length ≤ 1 :=
  C5_unique_per_coordinate_and_version DB.empty recC5a
    (by
      unfold ArtifactTableWF
      refine ⟨fun o n v => ?_, ?_, ?_⟩ <;> simp [artifact_rows_for, DB.empty])
    "org" "lib" "1.0"

/-! ### C7 and C8: traversal of the dependency tree -/

/-- Inversion for `consLine`. -/
theorem consLine_eq_some (line : String) (o : Option RenderResult)
    (out : RenderResult) (h : consLine line o = some out) :
    ∃ ls vr va, o = some (ls, vr, va) ∧ out = (line :: ls, vr, va) := by
  cases o with
  | none => cases h
  | some res =>
    obtain ⟨ls, vr, va⟩ := res
    cases h
    exact ⟨ls, vr, va, rfl, rfl⟩

/-- Function `consLine` succeeds exactly when its argument does. -/
theorem consLine_isSome (line : String) (o : Option RenderResult) :
    (consLine line o).isSome = o.isSome := by
  cases o with
  | none => rfl
  | some res =>
    obtain ⟨ls, vr, va⟩ := res
    rfl

/-- Inversion for `prependLines`. -/
theorem prependLines_eq_some (ls1 : List String) (o : Option RenderResult)
    (out : RenderResult) (h : prependLines ls1 o = some out) :
    ∃ ls vr va, o = some (ls, vr, va) ∧ out = (ls1 ++ ls, vr, va) := by
  cases o with
  | none => cases h
  | some res =>
    obtain ⟨ls, vr, va⟩ := res
    cases h
    exact ⟨ls, vr, va, rfl, rfl⟩

/-- Function `prependLines` succeeds exactly when its argument does. -/
theorem prependLines_isSome (ls1 : List String) (o : Option RenderResult) :
    (prependLines ls1 o).isSome = o.isSome := by
  cases o with
  | none => rfl
  | some res =>
    obtain ⟨ls, vr, va⟩ := res
    rfl

/-- When `get_repository_for_plugin` resolves an owning repository, that
repository is a stored row (the query joins the repositories table). -/
theorem get_repository_for_plugin_mem (db : DB) (aid prid : Nat)
    (porg pname pstatus : Option String)
    (h : get_repository_for_plugin db aid = some (prid, porg, pname, pstatus)) :
    ∃ r ∈ db.repositories, r.id = prid := by
  unfold get_repository_for_plugin at h
  split at h
  next a hfa =>
    split at h
    next rid hrid =>
      rcases Option.map_eq_some'.1 h with ⟨r, hfr, hr⟩
      refine ⟨r, List.mem_of_find?_eq_some hfr, ?_⟩
      cases hr
      rfl
    next => cases h
  next => cases h

/-- Growing the visited set can only shrink the unvisited count. -/
theorem unvisited_mono (db : DB) (vr1 vr2 : List Nat) (h : ∀ x ∈ vr1, x ∈ vr2) :
    unvisited db vr2 ≤ unvisited db vr1 := by
  unfold unvisited
  apply length_filter_mono
  intro r hr
  simp only [Bool.not_eq_true', decide_eq_false_iff_not] at hr ⊢
  exact fun hmem => hr (h _ hmem)

/-- Visiting a stored, unvisited repository strictly shrinks the unvisited
count. -/
theorem unvisited_cons_lt (db : DB) (vr : List Nat) (r : Repository)
    (hmem : r ∈ db.repositories) (hnot : r.id ∉ vr) :
    unvisited db (r.id :: vr) < unvisited db vr := by
  unfold unvisited
  apply length_filter_lt _ _ _ ?_ r hmem ?_ ?_
  · intro x hx
    simp only [Bool.not_eq_true', decide_eq_false_iff_not] at hx ⊢
    exact fun hm => hx (List.mem_cons_of_mem _ hm)
  · simp [hnot]
  · simp

/-- The unvisited count never exceeds the number of repository rows. -/
theorem unvisited_le_length (db : DB) (vr : List Nat) :
    unvisited db vr ≤ db.repositories.length :=
  List.length_filter_le _ _

/-- Processing a dependency row list only grows the visited-repository set,
provided the recursive call does. -/
theorem render_plugin_deps_mono (db : DB)
    (child : Nat → Option String → Option String → Option String →
      List Nat → List (String × String) → String → Option RenderResult)
    (hchild : ∀ rid org name status vr va ind out,
      child rid org name status vr va ind = some out → ∀ x ∈ vr, x ∈ out.2.1) :
    ∀ (deps : List PluginDepRow) (indent : String) (vr : List Nat)
      (va : List (String × String)) (out : RenderResult),
      render_plugin_deps db child indent deps vr va = some out →
      ∀ x ∈ vr, x ∈ out.2.1 := by
  intro deps
  induction deps with
  | nil =>
    intro indent vr va out h x hx
    cases h
    exact hx
  | cons d rest ih =>
    intro indent vr va out h x hx
    revert h
    unfold render_plugin_deps
    dsimp only
    cases hrep : get_repository_for_plugin db d.id with
    | none =>
      dsimp only
      by_cases hva : (d.organization, d.name) ∈ va
      · rw [if_pos hva]
        intro h
        rcases consLine_eq_some _ _ _ h with ⟨ls, vr2, va2, hinner, hout⟩
        subst hout
        exact ih _ _ _ _ hinner x hx
      · rw [if_neg hva]
        intro h
        rcases consLine_eq_some _ _ _ h with ⟨ls, vr2, va2, hinner, hout⟩
        subst hout
        exact ih _ _ _ _ hinner x hx
    | some tup =>
      obtain ⟨prid, porg, pname, pstatus⟩ := tup
      dsimp only
      by_cases hv : prid ∈ vr
      · rw [if_pos hv]
        intro h
        rcases consLine_eq_some _ _ _ h with ⟨ls, vr2, va2, hinner, hout⟩
        subst hout
        exact ih _ _ _ _ hinner x hx
      · rw [if_neg hv]
        by_cases hup : pstatus = some "upstream"
        · rw [if_pos hup]
          intro h
          rcases consLine_eq_some _ _ _ h with ⟨ls, vr2, va2, hinner, hout⟩
          subst hout
          exact ih _ _ _ _ hinner x hx
        · rw [if_neg hup]
          cases hch : child prid porg pname pstatus vr
              ((d.organization, d.name) :: va)
              (indent ++ (if rest.isEmpty then "   " else "│  ")) with
          | none =>
            intro h
            cases h
          | some res =>
            obtain ⟨ls1, vr1, va1⟩ := res
            intro h
            rcases prependLines_eq_some _ _ _ h with ⟨ls, vr2, va2, hinner, hout⟩
            subst hout
            exact ih _ _ _ _ hinner x (hchild _ _ _ _ _ _ _ _ hch x hx)

/-- Processing a dependency row list succeeds whenever the recursion budget
covers the unvisited-repository count, provided the recursive call does. -/
theorem render_plugin_deps_isSome (db : DB) (fuel : Nat)
    (child : Nat → Option String → Option String → Option String →
      List Nat → List (String × String) → String → Option RenderResult)
    (hchild_mono : ∀ rid org name status vr va ind out,
      child rid org name status vr va ind = some out → ∀ x ∈ vr, x ∈ out.2.1)
    (hchild_some : ∀ rid org name status vr va ind,
      (∃ r ∈ db.repositories, r.id = rid) → rid ∉ vr → unvisited db vr ≤ fuel →
      (child rid org name status vr va ind).isSome = true) :
    ∀ (deps : List PluginDepRow) (indent : String) (vr : List Nat)
      (va : List (String × String)),
      unvisited db vr ≤ fuel →
      (render_plugin_deps db child indent deps vr va).isSome = true := by
  intro deps
  induction deps with
  | nil =>
    intro indent vr va hb
    rfl
  | cons d rest ih =>
    intro indent vr va hb
    unfold render_plugin_deps
    dsimp only
    cases hrep : get_repository_for_plugin db d.id with
    | none =>
      dsimp only
      by_cases hva : (d.organization, d.name) ∈ va
      · rw [if_pos hva, consLine_isSome]
        exact ih _ _ _ hb
      · rw [if_neg hva, consLine_isSome]
        exact ih _ _ _ hb
    | some tup =>
      obtain ⟨prid, porg, pname, pstatus⟩ := tup
      dsimp only
      by_cases hv : prid ∈ vr
      · rw [if_pos hv, consLine_isSome]
        exact ih _ _ _ hb
      · rw [if_neg hv]
        by_cases hup : pstatus = some "upstream"
        · rw [if_pos hup, consLine_isSome]
          exact ih _ _ _ hb
        · rw [if_neg hup]
          have hsome := hchild_some prid porg pname pstatus vr
            ((d.organization, d.name) :: va)
            (indent ++ (if rest.isEmpty then "   " else "│  "))
            (get_repository_for_plugin_mem db d.id prid porg pname pstatus hrep)
            hv hb
          cases hch : child prid porg pname pstatus vr
              ((d.organization, d.name) :: va)
              (indent ++ (if rest.isEmpty then "   " else "│  ")) with
          | none =>
            rw [hch] at hsome
            cases hsome
          | some res =>
            obtain ⟨ls1, vr1, va1⟩ := res
            rw [prependLines_isSome]
            apply ih
            exact le_trans
              (unvisited_mono db vr vr1 (hchild_mono _ _ _ _ _ _ _ _ hch))
              hb

/-- The traversal only grows the visited-repository set. -/
theorem print_dependency_tree_fuel_mono (db : DB) :
    ∀ (fuel rid : Nat) (org name status : Option String) (vr : List Nat)
      (va : List (String × String)) (ind : String) (out : RenderResult),
      print_dependency_tree_fuel db fuel rid org name status vr va ind = some out →
      ∀ x ∈ vr, x ∈ out.2.1 := by
  intro fuel
  induction fuel with
  | zero =>
    intro rid org name status vr va ind out h
    cases h
  | succ fuel ih =>
    intro rid org name status vr va ind out h x hx
    unfold print_dependency_tree_fuel at h
    rcases consLine_eq_some _ _ _ h with ⟨ls, vr2, va2, hinner, hout⟩
    subst hout
    exact render_plugin_deps_mono db _ (fun a b c d e f g o ho => ih a b c d e f g o ho)
      _ _ _ _ _ hinner x (List.mem_cons_of_mem _ hx)

/-- The traversal finishes whenever the recursion budget exceeds the
unvisited-repository count: entering a node consumes one budget unit and
strictly shrinks the unvisited count. -/
theorem print_dependency_tree_fuel_isSome (db : DB) :
    ∀ (fuel rid : Nat) (org name status : Option String) (vr : List Nat)
      (va : List (String × String)) (ind : String),
      (∃ r ∈ db.repositories, r.id = rid) → rid ∉ vr → unvisited db vr ≤ fuel →
      (print_dependency_tree_fuel db fuel rid org name status vr va ind).isSome =
        true := by
  intro fuel
  induction fuel with
  | zero =>
    intro rid org name status vr va ind hex hnot hb
    exfalso
    rcases hex with ⟨r, hr, hrid⟩
    have hpos : 0 < unvisited db vr := by
      unfold unvisited
      refine List.length_pos_of_mem (List.mem_filter.2 ⟨hr, ?_⟩)
      simp only [Bool.not_eq_true', decide_eq_false_iff_not]
      rw [hrid]
      exact hnot
    omega
  | succ fuel ih =>
    intro rid org name status vr va ind hex hnot hb
    unfold print_dependency_tree_fuel
    rw [consLine_isSome]
    apply render_plugin_deps_isSome db fuel (print_dependency_tree_fuel db fuel)
      (fun a b c d e f g o ho => print_dependency_tree_fuel_mono db fuel a b c d e f g o ho)
      (fun a b c d e f g h1 h2 h3 => ih a b c d e f g h1 h2 h3)
    rcases hex with ⟨r, hr, hrid⟩
    have hlt := unvisited_cons_lt db vr r hr (by rw [hrid]; exact hnot)
    rw [hrid] at hlt
    omega

/--
C7: rendering the dependency tree terminates on every graph, cyclic ones
included.  First conjunct: for every store and every stored root repository,
the traversal (run with the budget `print_dependency_tree` supplies) finishes.
Second conjunct: on the concrete two-repository cycle A↔B, rendering from A
terminates and produces exactly three lines — A's node, B visited exactly
once as a full node, and A appearing a second time only as a leaf annotated
"(already visited)" with nothing rendered below it; the visited sets end as
{A, B} for repositories and B's artifact key.
-/
theorem C7_cycle_termination :
    (∀ (db : DB) (rid : Nat) (org name status : Option String)
      (va : List (String × String)) (indent : String),
      (∃ r ∈ db.repositories, r.id = rid) →
      (print_dependency_tree db rid org name status [] va indent).isSome = true) ∧
    print_dependency_tree cycDB 1 (some "org") (some "A") (some "not_ported") [] [] "" =
      some (["\x1b[31mX\x1b[0m org/A", "   \x1b[31mX\x1b[0m org/B",
        "   └─ \x1b[31mX\x1b[0m org/A \x1b[33m(already visited)\x1b[0m"],
        [2, 1], [("org", "B")]) := by
  constructor
  · intro db rid org name status va indent hex
    unfold print_dependency_tree
    apply print_dependency_tree_fuel_isSome db (db.repositories.length + 1) rid
      org name status [] va indent hex (by simp)
    have := unvisited_le_length db ([] : List Nat)
    omega
  · decide

/--
Witness for C7's universal conjunct at a concrete input: rendering the cyclic
store from root B also terminates.
-/
theorem C7_cycle_termination_witness :
    (print_dependency_tree cycDB 2 (some "org") (some "B") (some "not_ported")
      [] [] "").isSome = true :=
  C7_cycle_termination.1 cycDB 2 (some "org") (some "B") (some "not_ported") [] ""
    ⟨repoB, by decide, rfl⟩

/--
C8: a plugin dependency whose owning repository has status upstream is
emitted as a terminal leaf and its own plugin dependencies are never visited:
on the concrete store where A depends on B (status upstream) and B declares a
plugin dependency on C, rendering from A produces exactly A's node and B as a
leaf; no printed line mentions C (its name does not occur in any line), C's
repository id 3 is not visited and C's artifact key is not marked visited.
-/
theorem C8_upstream_pruned :
    print_dependency_tree upstreamDB 1 (some "org") (some "A") (some "not_ported")
        [] [] "" =
      some (["\x1b[31mX\x1b[0m org/A", "└─ \x1b[32m✓\x1b[0m org/B"],
        [1], [("org", "B")]) ∧
    (["\x1b[31mX\x1b[0m org/A", "└─ \x1b[32m✓\x1b[0m org/B"].all
      (fun l => !(l.toList.contains 'C'))) = true ∧
    repoC.name = some "C" :=
  ⟨by decide, by decide, rfl⟩
